import Mathlib

/-!
Shallow embedding of the Booking & Inventory Consistency Engine of the
evMonde event-registration backend (FastAPI + SQLAlchemy, files
`app/api/registrations.py`, `app/api/webhooks.py`,
`app/services/waitlist_service.py`, and the models in `app/models/`).

Conventions of the embedding:
* the relational store is a `DB` record of lists of rows;
* SQLAlchemy row mutation followed by `commit` is modelled as replacing
  the row (matched by primary key) in the corresponding list;
* timestamps are seconds since the epoch (`Nat`); `datetime.utcnow()`
  becomes an explicit `now` parameter;
* money (`Float` columns) is modelled as `ℚ`;
* external collaborators (Stripe session creation / retrieval, refunds,
  QR-token generation) are modelled as explicit parameters carrying the
  collaborator's answer; e-mail and notification side effects, which
  never influence the persisted core state on their failure paths, are
  not modelled;
* a Python code path that raises an uncaught exception before any
  `commit` is modelled as an error result with the store unchanged; a
  path that can raise after partial commits returns `Option`/an explicit
  crash marker.
-/

namespace EvMonde

/-- `RegistrationStatus` enum of `app/models/registration.py`. -/
inductive RegStatus
  | pending
  | confirmed
  | waitlist
  | offered
  | cancelled
  | refunded
deriving DecidableEq

/-- `PaymentStatus` enum of `app/models/registration.py`. -/
inductive PayStatus
  | notRequired
  | pending
  | paid
  | failed
  | refunded
deriving DecidableEq

/-- `RegistrationType` enum of `app/models/registration.py`. -/
inductive RegType
  | user
  | guest
deriving DecidableEq

/-- `EventStatus` enum of `app/models/event.py`. -/
inductive EvStatus
  | draft
  | published
  | cancelled
  | completed
deriving DecidableEq

/-- Row of the `events` table (`app/models/event.py`), restricted to the
columns the booking core reads or writes.  `available_seats` is an `Int`
because nothing in the code constrains the column to stay non-negative. -/
structure Event where
  id : Nat
  organizer_id : Nat
  category_id : Option Nat
  status : EvStatus
  start_date : Nat
  capacity : Int
  available_seats : Int
  is_free : Bool
  currency : String
deriving DecidableEq

/-- Row of the `tickets` table (`app/models/ticket.py`). -/
structure Ticket where
  id : Nat
  event_id : Nat
  price : ℚ
  quantity_available : Int
  quantity_sold : Int
  is_active : Bool
deriving DecidableEq

/-- `Ticket.is_sold_out` property: `quantity_sold >= quantity_available`. -/
def Ticket.isSoldOut (t : Ticket) : Bool :=
  t.quantity_available ≤ t.quantity_sold

/-- Row of the `registrations` table (`app/models/registration.py`),
restricted to the columns the booking core reads or writes. -/
structure Registration where
  id : Nat
  event_id : Nat
  ticket_id : Option Nat
  regType : RegType
  user_id : Option Nat
  guest_email : Option String
  status : RegStatus
  payment_status : PayStatus
  amount_paid : ℚ
  currency : String
  stripe_session_id : Option String
  stripe_payment_intent_id : Option String
  qr_code_data : Option String
  scanned_count : Nat
  first_scan_at : Option Nat
  last_scan_at : Option Nat
  waitlist_joined_at : Option Nat
  offer_expires_at : Option Nat
  created_at : Nat
deriving DecidableEq

/-- Row of the `users` table, restricted to what
`Registration.get_participant_email` needs. -/
structure User where
  id : Nat
  email : String
deriving DecidableEq

/-- Singleton row of `commission_settings` (`app/models/commission.py`). -/
structure CommissionSettings where
  default_commission_rate : ℚ
  minimum_commission_amount : ℚ
  is_active : Bool
deriving DecidableEq

/-- Row of `categories`, restricted to the commission override column. -/
structure Category where
  id : Nat
  custom_commission_rate : Option ℚ
deriving DecidableEq

/-- Row of `commission_transactions` (`app/models/commission.py`). -/
structure CommissionTransaction where
  registration_id : Nat
  event_id : Nat
  organizer_id : Nat
  ticket_amount : ℚ
  commission_rate : ℚ
  commission_amount : ℚ
  net_amount : ℚ
  currency : String
  stripe_payment_intent_id : Option String
deriving DecidableEq

/-- The relational store. -/
structure DB where
  events : List Event
  tickets : List Ticket
  registrations : List Registration
  users : List User
  commissions : List CommissionTransaction
  commissionSettings : Option CommissionSettings
  categories : List Category
deriving DecidableEq

/-- `db.query(Event).filter(Event.id == eid).first()`. -/
def findEvent (db : DB) (eid : Nat) : Option Event :=
  db.events.find? (fun e => e.id == eid)

/-- `db.query(Event).filter(Event.id == eid, Event.status == PUBLISHED).first()`. -/
def findPublishedEvent (db : DB) (eid : Nat) : Option Event :=
  db.events.find? (fun e => e.id == eid && e.status == EvStatus.published)

/-- `db.query(Ticket).filter(Ticket.id == tid).first()`. -/
def findTicket (db : DB) (tid : Nat) : Option Ticket :=
  db.tickets.find? (fun t => t.id == tid)

/-- `db.query(Registration).filter(Registration.id == rid).first()`. -/
def findReg (db : DB) (rid : Nat) : Option Registration :=
  db.registrations.find? (fun r => r.id == rid)

/-- `db.query(Registration).filter(Registration.qr_code_data == token).first()`. -/
def findRegByQr (db : DB) (token : String) : Option Registration :=
  db.registrations.find? (fun r => r.qr_code_data == some token)

/-- `db.query(User).filter(User.id == uid).first()` (relationship loading). -/
def findUser (db : DB) (uid : Nat) : Option User :=
  db.users.find? (fun u => u.id == uid)

/-- `db.query(Category).filter(Category.id == cid).first()`. -/
def findCategory (db : DB) (cid : Nat) : Option Category :=
  db.categories.find? (fun c => c.id == cid)

/-- Committing an in-place mutation of an event row: every row with the
same primary key is replaced. -/
def updateEvent (db : DB) (e : Event) : DB :=
  { db with events := db.events.map (fun x => if x.id == e.id then e else x) }

/-- Committing an in-place mutation of a ticket row. -/
def updateTicket (db : DB) (t : Ticket) : DB :=
  { db with tickets := db.tickets.map (fun x => if x.id == t.id then t else x) }

/-- Committing an in-place mutation of a registration row. -/
def updateReg (db : DB) (r : Registration) : DB :=
  { db with registrations := db.registrations.map (fun x => if x.id == r.id then r else x) }

/-- `db.add(registration); db.commit()`. -/
def addReg (db : DB) (r : Registration) : DB :=
  { db with registrations := db.registrations ++ [r] }

/-- `Registration.get_participant_email`:
`user.email` when the registration is account-backed and the user row
loads, else `guest_email`. -/
def participantEmail (db : DB) (r : Registration) : Option String :=
  if r.regType = RegType.user then
    match r.user_id.bind (findUser db) with
    | some u => some u.email
    | none => r.guest_email
  else r.guest_email

/-! ## Commission posting (shared block of `webhooks.py` lines 220-274 and
`registrations.py` lines 1070-1121) -/

/-- Rate resolution: the category's custom rate when the event has a
category with one set, else the platform default
(`webhooks.py` lines 228-237). -/
def resolveCommissionRate (db : DB) (ev : Event) (cs : CommissionSettings) : ℚ :=
  match ev.category_id with
  | some cid =>
    match findCategory db cid with
    | some cat =>
      match cat.custom_commission_rate with
      | some r => r
      | none => cs.default_commission_rate
    | none => cs.default_commission_rate
  | none => cs.default_commission_rate

/-- `commission_amount = amount * rate / 100`, raised to
`minimum_commission_amount` only when that minimum is positive
(`webhooks.py` lines 239-244). -/
def commissionAmountOf (cs : CommissionSettings) (amount rate : ℚ) : ℚ :=
  let a := (amount * rate) / 100
  if 0 < cs.minimum_commission_amount then max a cs.minimum_commission_amount else a

/-- Posting one `CommissionTransaction`, skipped when a row for the same
registration already exists (`webhooks.py` lines 249-274).  The caller has
already checked that settings are active and `amount_paid > 0`. -/
def postCommission (db : DB) (cs : CommissionSettings) (reg : Registration) (ev : Event) : DB :=
  let rate := resolveCommissionRate db ev cs
  let camount := commissionAmountOf cs reg.amount_paid rate
  let net := reg.amount_paid - camount
  match db.commissions.find? (fun c => c.registration_id == reg.id) with
  | some _ => db
  | none =>
    { db with commissions := db.commissions ++
        [{ registration_id := reg.id
           event_id := ev.id
           organizer_id := ev.organizer_id
           ticket_amount := reg.amount_paid
           commission_rate := rate
           commission_amount := camount
           net_amount := net
           currency := reg.currency
           stripe_payment_intent_id := reg.stripe_payment_intent_id }] }

/-! ## Payment confirmation: Stripe webhook (`webhooks.py`) -/

/-- The registration-row mutations shared by the webhook
(`webhooks.py` lines 177-196) and the fallback (`registrations.py`
lines 1045-1055): mark confirmed and paid, store the session id, store
the payment intent when the session carries one, and generate a QR token
only when the row has none yet. -/
def confirmedRegOf (reg : Registration) (sid : String) (pi : Option String)
    (fq : String) : Registration :=
  let reg1 : Registration :=
    { reg with
        status := RegStatus.confirmed
        payment_status := PayStatus.paid
        stripe_session_id := some sid
        stripe_payment_intent_id :=
          match pi with
          | some p => some p
          | none => reg.stripe_payment_intent_id }
  if reg1.qr_code_data = none then { reg1 with qr_code_data := some fq } else reg1

/-- Seat decrement and ticket-sale increment performed at confirmation
time: `webhooks.py` lines 198-218, and `registrations.py` lines
1059-1068 which differ only in flooring the seat count at zero
(`clampSeats`). -/
def applyInventoryOnConfirm (db : DB) (reg : Registration) (clampSeats : Bool) : DB :=
  let db2 :=
    match findEvent db reg.event_id with
    | some ev =>
      updateEvent db
        { ev with
            available_seats :=
              if clampSeats then max 0 (ev.available_seats - 1)
              else ev.available_seats - 1 }
    | none => db
  match reg.ticket_id with
  | some tid =>
    match findTicket db2 tid with
    | some t => updateTicket db2 { t with quantity_sold := t.quantity_sold + 1 }
    | none => db2
  | none => db2

inductive WebhookResult
  | missingRef
  | regNotFound
  | alreadyProcessed
  | completed (rid : Nat)
  | crashed
deriving DecidableEq

/-- `stripe_webhook`, `checkout.session.completed` branch
(`webhooks.py` lines 134-362).  Parameters: `clientRef` is the session's
`client_reference_id`, `sid` its id, `pi` its `payment_intent`, `fq` the
freshly generated QR token.  `crashed` models two uncaught exceptions,
both raised before the single `db.commit()` at line 279 so that the
session is closed without committing and the store is unchanged:
the `NameError` at line 193 — `webhooks.py` never binds the name
`settings` (no import at lines 5-19 and none in the function), so
building the QR URL raises whenever the row has no QR token yet, which
is the case for every fresh paid `PENDING` registration — and the
`AttributeError` at line 233 (`event.category_id` with `event = None`).
A completed transition is therefore only reachable for a registration
that already carries a QR token, in which case the QR block at lines
190-196 is skipped and `fq` is unused. -/
def stripeWebhookCompleted (db : DB) (clientRef : Option Nat) (sid : String)
    (pi : Option String) (fq : String) : DB × WebhookResult :=
  match clientRef with
  | none => (db, WebhookResult.missingRef)
  | some rid =>
    match findReg db rid with
    | none => (db, WebhookResult.regNotFound)
    | some reg =>
      if reg.status = RegStatus.confirmed then
        (db, WebhookResult.alreadyProcessed)
      else if reg.qr_code_data = none then
        (db, WebhookResult.crashed)
      else
        let reg2 := confirmedRegOf reg sid pi fq
        let db1 := updateReg db reg2
        let db3 := applyInventoryOnConfirm db1 reg false
        match db3.commissionSettings with
        | some cs =>
          if cs.is_active && decide (0 < reg.amount_paid) then
            match findEvent db1 reg.event_id with
            | none => (db, WebhookResult.crashed)
            | some ev => (postCommission db3 cs reg2 ev, WebhookResult.completed rid)
          else (db3, WebhookResult.completed rid)
        | none => (db3, WebhookResult.completed rid)

/-- `stripe_webhook`, `checkout.session.expired` branch
(`webhooks.py` lines 367-383): the registration is cancelled and its
payment marked failed; nothing else is touched. -/
def stripeWebhookExpired (db : DB) (clientRef : Option Nat) : DB :=
  match clientRef with
  | none => db
  | some rid =>
    match findReg db rid with
    | none => db
    | some reg =>
      updateReg db { reg with status := RegStatus.cancelled, payment_status := PayStatus.failed }

/-! ## Payment confirmation: client fallback (`registrations.py` `confirm_payment`) -/

inductive ConfirmResult
  | sessionFetchFailed
  | notPaid
  | missingRef
  | regNotFound
  | alreadyConfirmed (rid : Nat)
  | confirmedNow (rid : Nat)
  | crashed
deriving DecidableEq

/-- Whether the fallback's response has `success=True`. -/
def ConfirmResult.isSuccess : ConfirmResult → Bool
  | ConfirmResult.alreadyConfirmed _ => true
  | ConfirmResult.confirmedNow _ => true
  | _ => false

/-- `confirm_payment` (`registrations.py` lines 990-1187).
`sessionFetched` / `sessionPaid` model the Stripe session retrieval and
its `payment_status == "paid"` check; `clientRef` is the session's
`client_reference_id`.  `crashed` models the uncaught `AttributeError`
when the commission block posts a row with `event = None` (line 1108);
it happens before the `db.commit()` at line 1123, so the store is
unchanged. -/
def confirmPaymentFallback (db : DB) (sessionFetched sessionPaid : Bool)
    (clientRef : Option Nat) (sid : String) (pi : Option String) (fq : String) :
    DB × ConfirmResult :=
  if ¬ sessionFetched then (db, ConfirmResult.sessionFetchFailed)
  else if ¬ sessionPaid then (db, ConfirmResult.notPaid)
  else
    match clientRef with
    | none => (db, ConfirmResult.missingRef)
    | some rid =>
      match findReg db rid with
      | none => (db, ConfirmResult.regNotFound)
      | some reg =>
        if reg.status = RegStatus.confirmed then (db, ConfirmResult.alreadyConfirmed rid)
        else
          let reg2 := confirmedRegOf reg sid pi fq
          let db1 := updateReg db reg2
          let db3 := applyInventoryOnConfirm db1 reg true
          match db3.commissionSettings with
          | some cs =>
            if cs.is_active && decide (0 < reg.amount_paid) then
              match findEvent db1 reg.event_id with
              | none =>
                if (db3.commissions.find? (fun c => c.registration_id == reg.id)).isSome
                then (db3, ConfirmResult.confirmedNow rid)
                else (db, ConfirmResult.crashed)
              | some ev => (postCommission db3 cs reg2 ev, ConfirmResult.confirmedNow rid)
            else (db3, ConfirmResult.confirmedNow rid)
          | none => (db3, ConfirmResult.confirmedNow rid)

/-! ## Waitlist allocator (`waitlist_service.py` `allocate_waitlist_if_possible`) -/

/-- Strict ascending comparison on nullable timestamps, SQL
`ORDER BY ... ASC` with `NULLS LAST`. -/
def joinedBefore (a b : Option Nat) : Bool :=
  match a, b with
  | some x, some y => x < y
  | some _, none => true
  | none, _ => false

/-- Accumulator of the `LIMIT 1` minimum over `waitlist_joined_at`:
keep the strictly older row. -/
def pickOlder (acc : Option Registration) (r : Registration) : Option Registration :=
  match acc with
  | none => some r
  | some b => if joinedBefore r.waitlist_joined_at b.waitlist_joined_at then some r else some b

/-- `SELECT ... WHERE event_id = eid AND status = 'waitlist'
ORDER BY waitlist_joined_at ASC LIMIT 1`
(`waitlist_service.py` lines 119-126). -/
def selectOldestWaitlist (db : DB) (eid : Nat) : Option Registration :=
  (db.registrations.filter
      (fun r => r.event_id == eid && r.status == RegStatus.waitlist)).foldl pickOlder none

/-- `allocate_waitlist_if_possible` (`waitlist_service.py` lines 102-245).
`sess` is the id of the checkout session created on the paid-event path
(`none` when Stripe session creation fails, whose exception is swallowed
at line 244 after the main commit); `fq` is kept for the QR token the
free-event path generates at line 132, which is never committed: the
local import at line 192 makes `settings` local to the whole function,
so the free branch raises `UnboundLocalError` at line 134 before its
`db.commit()` at line 146.  Every caller either swallows the exception
(the sweeper at lines 278-282, `cancel_registration` at lines
1532-1536) or lets the request fail; in either case this call commits
nothing on a free event, so the branch returns the store unchanged.
The paid branch commits at line 188 before touching `settings` and is
unaffected. -/
def allocateWaitlistIfPossible (db : DB) (eid : Nat) (now : Nat)
    (_fq : String) (sess : Option String) : DB :=
  match findEvent db eid with
  | none => db
  | some ev =>
    if ev.available_seats ≤ 0 then db
    else
      match selectOldestWaitlist db eid with
      | none => db
      | some cand =>
        if ev.is_free then db
        else
          let cand1 : Registration :=
            { cand with
                status := RegStatus.offered
                offer_expires_at := some (now + 3600) }
          let db1 := updateReg db cand1
          let db2 := updateEvent db1 { ev with available_seats := max 0 (ev.available_seats - 1) }
          match sess with
          | some sid => updateReg db2 { cand1 with stripe_session_id := some sid }
          | none => db2

/-! ## Offer expiry sweeper (`waitlist_service.py` `expire_offers_and_reallocate`) -/

/-- Membership in the sweep's `expired` query:
`status = 'offered' AND offer_expires_at IS NOT NULL AND offer_expires_at < now`. -/
def isExpiredOffer (now : Nat) (r : Registration) : Bool :=
  r.status == RegStatus.offered &&
    match r.offer_expires_at with
    | some t => t < now
    | none => false

/-- `ORDER BY offer_expires_at ASC` comparison (`NULLS LAST`). -/
def expiresLe (a b : Registration) : Bool :=
  match a.offer_expires_at, b.offer_expires_at with
  | some x, some y => x ≤ y
  | some _, none => true
  | none, some _ => false
  | none, none => true

/-- The sweep's `expired` snapshot (`waitlist_service.py` lines 251-258). -/
def expiredOffers (db : DB) (now : Nat) : List Registration :=
  List.insertionSort (fun a b => expiresLe a b = true)
    (db.registrations.filter (isExpiredOffer now))

/-- One iteration of the sweep loop (`waitlist_service.py` lines 262-273):
skip when the owning event is gone, otherwise push the registration back
to the waitlist, clear the offer deadline and the stored Stripe session,
and release one seat. -/
def expireOne (db : DB) (reg : Registration) : DB :=
  match findEvent db reg.event_id with
  | none => db
  | some ev =>
    let db1 := updateReg db
      { reg with
          status := RegStatus.waitlist
          offer_expires_at := none
          stripe_session_id := none }
    updateEvent db1 { ev with available_seats := ev.available_seats + 1 }

/-- The sweep loop plus its commit (`waitlist_service.py` lines 260-276),
without the follow-up allocator invocations. -/
def expireOffersStep (db : DB) (now : Nat) : DB :=
  (expiredOffers db now).foldl expireOne db

/-- `touched_event_ids`: the ids of events whose offers were reclaimed
(deduplicated).  An event row found mid-loop exists in the initial store
too — updates never add or remove event rows — so the set is computed
from the initial store. -/
def touchedEventIds (db : DB) (now : Nat) : List Nat :=
  ((expiredOffers db now).filterMap (fun r =>
    if (findEvent db r.event_id).isSome then some r.event_id else none)).eraseDups

/-- `expire_offers_and_reallocate` (`waitlist_service.py` lines 248-282):
the sweep loop, then one allocator pass per touched event.  `fq` and
`sess` supply each allocator pass's fresh QR token and checkout session. -/
def expireOffersAndReallocate (db : DB) (now : Nat)
    (fq : Nat → String) (sess : Nat → Option String) : DB :=
  let db1 := expireOffersStep db now
  (touchedEventIds db now).foldl
    (fun d eid => allocateWaitlistIfPossible d eid now (fq eid) (sess eid)) db1

/-! ## Cancellation (`registrations.py` `cancel_registration`) -/

inductive CancelResult
  | notFound
  | forbidden
  | alreadyCancelled
  | eventMissing
  | blackout
  | refundFailed
  | ok
deriving DecidableEq

/-- `cancel_registration` (`registrations.py` lines 1443-1547).
`uid` is the authenticated user, `refundOk` the outcome of
`create_refund` on the paid path, `fq`/`sess` feed the allocator pass
triggered after the cancellation commit. -/
def cancelRegistration (db : DB) (rid uid : Nat) (now : Nat)
    (refundOk : Bool) (fq : String) (sess : Option String) : DB × CancelResult :=
  match findReg db rid with
  | none => (db, CancelResult.notFound)
  | some reg =>
    if reg.user_id ≠ some uid then (db, CancelResult.forbidden)
    else if reg.status = RegStatus.cancelled then (db, CancelResult.alreadyCancelled)
    else
      match findEvent db reg.event_id with
      | none => (db, CancelResult.eventMissing)
      | some ev =>
        if (ev.start_date : Int) - (now : Int) < 86400 then (db, CancelResult.blackout)
        else
          let paidPath := reg.payment_status = PayStatus.paid ∧ reg.stripe_payment_intent_id ≠ none
          if paidPath ∧ ¬ refundOk then (db, CancelResult.refundFailed)
          else
            let reg1 : Registration :=
              if paidPath then
                { reg with status := RegStatus.refunded, payment_status := PayStatus.refunded }
              else
                { reg with status := RegStatus.cancelled }
            let db1 := updateReg db reg1
            let db2 := updateEvent db1 { ev with available_seats := ev.available_seats + 1 }
            let db3 :=
              match reg.ticket_id with
              | some tid =>
                match findTicket db2 tid with
                | some t => updateTicket db2 { t with quantity_sold := max 0 (t.quantity_sold - 1) }
                | none => db2
              | none => db2
            (allocateWaitlistIfPossible db3 ev.id now fq sess, CancelResult.ok)

/-! ## Anti-fraud QR verification (`registrations.py` `verify_qr_code`) -/

inductive QRVerdict
  | unknownToken
  | invalidStatus (st : RegStatus)
  | firstUse
  | suspiciousRepeat (minutesElapsed : Int)
  | fraud (scans : Nat)
deriving DecidableEq

/-- The response of `verify-qr`, reduced to its semantic content: the
`valid` flag, which of the route's five return branches produced it
(with the data that branch interpolates into its message), and the
participant e-mail exposed. -/
structure QRResponse where
  valid : Bool
  verdict : QRVerdict
  participant_email : Option String
deriving DecidableEq

/-- `verify_qr_code` (`registrations.py` lines 1194-1328).  The second
component is `none` when the route raises after its commit: on the
second-scan branch the elapsed-time computation (line 1297) subtracts
from `first_scan_at = NULL` after the incremented counter was already
committed. -/
def verifyQrCode (db : DB) (token : String) (now : Nat) : DB × Option QRResponse :=
  match findRegByQr db token with
  | none =>
    (db, some { valid := false, verdict := QRVerdict.unknownToken, participant_email := none })
  | some reg =>
    if reg.status ≠ RegStatus.confirmed then
      (db, some { valid := false, verdict := QRVerdict.invalidStatus reg.status,
                  participant_email := none })
    else if reg.scanned_count = 0 then
      let db1 := updateReg db
        { reg with scanned_count := 1, first_scan_at := some now, last_scan_at := some now }
      (db1, some { valid := true, verdict := QRVerdict.firstUse,
                   participant_email := participantEmail db reg })
    else if reg.scanned_count = 1 then
      let db1 := updateReg db
        { reg with scanned_count := reg.scanned_count + 1, last_scan_at := some now }
      match reg.first_scan_at with
      | none => (db1, none)
      | some f =>
        (db1, some { valid := false
                     verdict := QRVerdict.suspiciousRepeat (((now : Int) - (f : Int)).tdiv 60)
                     participant_email := participantEmail db reg })
    else
      let db1 := updateReg db
        { reg with scanned_count := reg.scanned_count + 1, last_scan_at := some now }
      (db1, some { valid := false, verdict := QRVerdict.fraud (reg.scanned_count + 1),
                   participant_email := none })

/-! ## Registration creation routes (`registrations.py` routes 1, 2, 2.5, 2.6) -/

inductive TicketError
  | notFound
  | wrongEvent
  | notActive
  | soldOut
deriving DecidableEq

/-- `validate_and_get_ticket` (`registrations.py` lines 87-127). -/
def validateTicket (db : DB) (eid tid : Nat) : Except TicketError Ticket :=
  match findTicket db tid with
  | none => Except.error TicketError.notFound
  | some t =>
    if t.event_id ≠ eid then Except.error TicketError.wrongEvent
    else if ¬ t.is_active then Except.error TicketError.notActive
    else if t.isSoldOut then Except.error TicketError.soldOut
    else Except.ok t

/-- `ORDER BY created_at DESC LIMIT 1` over a filtered registration set:
the latest-created match (SQL breaks `created_at` ties arbitrarily; the
embedding keeps the earliest list entry). -/
def latestBy (l : List Registration) : Option Registration :=
  l.foldl
    (fun acc r =>
      match acc with
      | none => some r
      | some b => if b.created_at < r.created_at then some r else some b)
    none

/-- The `Registration(...)` constructor call of the four full-event
branches: a fresh row joining the waitlist now, with no QR token, no
gateway ids and zeroed scan counters (the model defaults of
`app/models/registration.py`). -/
def waitlistRow (newId eid : Nat) (tid : Option Nat) (rt : RegType)
    (uid : Option Nat) (gemail : Option String) (pst : PayStatus)
    (amount : ℚ) (cur : String) (now : Nat) : Registration :=
  { id := newId, event_id := eid, ticket_id := tid, regType := rt,
    user_id := uid, guest_email := gemail,
    status := RegStatus.waitlist, payment_status := pst,
    amount_paid := amount, currency := cur,
    stripe_session_id := none, stripe_payment_intent_id := none,
    qr_code_data := none, scanned_count := 0,
    first_scan_at := none, last_scan_at := none,
    waitlist_joined_at := some now, offer_expires_at := none, created_at := now }

/-- The `Registration(...)` constructor call of the paid routes' happy
path: created `PENDING`, payment `PENDING`, priced by the ticket, no QR
token yet. -/
def pendingPaidRow (newId eid tid : Nat) (rt : RegType) (uid : Option Nat)
    (gemail : Option String) (price : ℚ) (cur : String) (now : Nat) : Registration :=
  { id := newId, event_id := eid, ticket_id := some tid, regType := rt,
    user_id := uid, guest_email := gemail,
    status := RegStatus.pending, payment_status := PayStatus.pending,
    amount_paid := price, currency := cur,
    stripe_session_id := none, stripe_payment_intent_id := none,
    qr_code_data := none, scanned_count := 0,
    first_scan_at := none, last_scan_at := none,
    waitlist_joined_at := none, offer_expires_at := none, created_at := now }

inductive RegResult
  | eventNotFound
  | wrongPriceRoute
  | ticketRequired
  | ticketInvalid (e : TicketError)
  | waitlisted (rid : Nat)
  | alreadyRegistered
  | pendingAwaitingPayment
  | reuseSession (sid : String)
  | stripeError
  | paymentSession (rid : Nat) (sid : String)
  | crashed
deriving DecidableEq

/-- `register_guest_to_event` (`registrations.py` lines 134-365), the free
guest route, up to its response.  `newId` is the primary key the insert
would receive, `fq` the QR token generated at line 257.  The
confirmed-creation path never succeeds: `registrations.py` never binds
`settings` (no import in the module or the function), so building the
row raises `NameError` at line 281 while evaluating the
`Registration(...)` arguments — before `db.add` at line 286 and the
commit at line 294 — leaving the store unchanged and the request failed
(`crashed`).  The full-event waitlist branch (lines 208-240) and the
duplicate guard (lines 243-254) run earlier and touch no `settings`. -/
def registerGuestToEvent (db : DB) (eid : Nat) (email : String) (ticket_id : Option Nat)
    (newId : Nat) (now : Nat) (_fq : String) : DB × RegResult :=
  match findPublishedEvent db eid with
  | none => (db, RegResult.eventNotFound)
  | some ev =>
    if ¬ ev.is_free then (db, RegResult.wrongPriceRoute)
    else
      let tval : Except TicketError (Option Ticket) :=
        match ticket_id with
        | none => Except.ok none
        | some tid => (validateTicket db eid tid).map some
      match tval with
      | Except.error e => (db, RegResult.ticketInvalid e)
      | Except.ok topt =>
        if ev.available_seats ≤ 0 then
          (addReg db (waitlistRow newId eid (topt.map (fun t => t.id)) RegType.guest
              none (some email) PayStatus.notRequired
              (match topt with | some t => t.price | none => 0) ev.currency now),
           RegResult.waitlisted newId)
        else
          match db.registrations.find? (fun r =>
              r.event_id == eid && r.guest_email == some email
                && r.status == RegStatus.confirmed) with
          | some _ => (db, RegResult.alreadyRegistered)
          | none => (db, RegResult.crashed)

/-- `register_user_to_event` (`registrations.py` lines 372-548), the free
account-holder route.  `reuseOk` models whether the existing pending
registration's Stripe session could be retrieved with a URL (the reuse
branch imports `settings` locally at line 465 and works).  That local
local import makes `settings` function-local, so the creation path
raises `UnboundLocalError` at line 492 while evaluating the
`Registration(...)` arguments — before `db.add` at line 499 and the
commit at line 507 — leaving the store unchanged and the request failed
(`crashed`).  The full-event waitlist branch (lines 424-444) and the
duplicate/reuse guard (lines 448-479) are unaffected. -/
def registerUserToEvent (db : DB) (eid uid : Nat) (ticket_id : Option Nat)
    (newId : Nat) (now : Nat) (_fq : String) (reuseOk : Bool) : DB × RegResult :=
  match findPublishedEvent db eid with
  | none => (db, RegResult.eventNotFound)
  | some ev =>
    if ¬ ev.is_free then (db, RegResult.wrongPriceRoute)
    else
      let tval : Except TicketError (Option Ticket) :=
        match ticket_id with
        | none => Except.ok none
        | some tid => (validateTicket db eid tid).map some
      match tval with
      | Except.error e => (db, RegResult.ticketInvalid e)
      | Except.ok topt =>
        if ev.available_seats ≤ 0 then
          (addReg db (waitlistRow newId eid (topt.map (fun t => t.id)) RegType.user
              (some uid) none PayStatus.notRequired
              (match topt with | some t => t.price | none => 0) ev.currency now),
           RegResult.waitlisted newId)
        else
          match latestBy (db.registrations.filter (fun r =>
              r.event_id == eid && r.user_id == some uid
                && (r.status == RegStatus.confirmed || r.status == RegStatus.pending))) with
          | some ex =>
            if ex.status = RegStatus.confirmed then (db, RegResult.alreadyRegistered)
            else
              match ex.stripe_session_id with
              | some esid =>
                if reuseOk then (db, RegResult.reuseSession esid)
                else (db, RegResult.pendingAwaitingPayment)
              | none => (db, RegResult.pendingAwaitingPayment)
          | none => (db, RegResult.crashed)

/-- `register_guest_to_paid_event` (`registrations.py` lines 555-737).
`sessionOpt` is the result of `create_checkout_session`: on `none` the
freshly inserted registration is deleted again and an error returned. -/
def registerGuestToPaidEvent (db : DB) (eid : Nat) (email : String) (ticket_id : Option Nat)
    (newId : Nat) (now : Nat) (reuseOk : Bool) (sessionOpt : Option String) : DB × RegResult :=
  match findPublishedEvent db eid with
  | none => (db, RegResult.eventNotFound)
  | some ev =>
    if ev.is_free then (db, RegResult.wrongPriceRoute)
    else
      match ticket_id with
      | none => (db, RegResult.ticketRequired)
      | some tid =>
        match validateTicket db eid tid with
        | Except.error e => (db, RegResult.ticketInvalid e)
        | Except.ok t =>
          if ev.available_seats ≤ 0 then
            (addReg db (waitlistRow newId eid (some t.id) RegType.guest
                none (some email) PayStatus.pending t.price ev.currency now),
             RegResult.waitlisted newId)
          else
            match latestBy (db.registrations.filter (fun r =>
                r.event_id == eid && r.guest_email == some email
                  && (r.status == RegStatus.confirmed || r.status == RegStatus.pending))) with
            | some ex =>
              if ex.status = RegStatus.confirmed then (db, RegResult.alreadyRegistered)
              else
                match ex.stripe_session_id with
                | some esid =>
                  if reuseOk then (db, RegResult.reuseSession esid)
                  else (db, RegResult.pendingAwaitingPayment)
                | none => (db, RegResult.pendingAwaitingPayment)
            | none =>
              let nreg : Registration :=
                pendingPaidRow newId eid t.id RegType.guest none (some email)
                  t.price ev.currency now
              let db1 := addReg db nreg
              match sessionOpt with
              | none => (db, RegResult.stripeError)
              | some sid =>
                (updateReg db1 { nreg with stripe_session_id := some sid },
                 RegResult.paymentSession newId sid)

/-- `register_user_to_paid_event` (`registrations.py` lines 744-880).
Note that unlike the guest route its duplicate check looks only for a
`CONFIRMED` registration (lines 804-816). -/
def registerUserToPaidEvent (db : DB) (eid uid : Nat) (ticket_id : Option Nat)
    (newId : Nat) (now : Nat) (sessionOpt : Option String) : DB × RegResult :=
  match findPublishedEvent db eid with
  | none => (db, RegResult.eventNotFound)
  | some ev =>
    if ev.is_free then (db, RegResult.wrongPriceRoute)
    else
      match ticket_id with
      | none => (db, RegResult.ticketInvalid TicketError.notFound)
      | some tid =>
        match validateTicket db eid tid with
        | Except.error e => (db, RegResult.ticketInvalid e)
        | Except.ok t =>
          if ev.available_seats ≤ 0 then
            (addReg db (waitlistRow newId eid (some t.id) RegType.user
                (some uid) none PayStatus.pending t.price ev.currency now),
             RegResult.waitlisted newId)
          else
            match db.registrations.find? (fun r =>
                r.event_id == eid && r.user_id == some uid
                  && r.status == RegStatus.confirmed) with
            | some _ => (db, RegResult.alreadyRegistered)
            | none =>
              let nreg : Registration :=
                pendingPaidRow newId eid t.id RegType.user (some uid) none
                  t.price ev.currency now
              let db1 := addReg db nreg
              match sessionOpt with
              | none => (db, RegResult.stripeError)
              | some sid =>
                (updateReg db1 { nreg with stripe_session_id := some sid },
                 RegResult.paymentSession newId sid)

/-! ## Concrete stores used by witnesses and counterexamples -/

/-- An empty store to extend. -/
def emptyDB : DB :=
  { events := [], tickets := [], registrations := [], users := [],
    commissions := [], commissionSettings := none, categories := [] }

/-- A registration with every optional column at its `NULL` / default
value, to be overridden field by field by the concrete stores. -/
def blankReg : Registration :=
  { id := 0, event_id := 0, ticket_id := none, regType := RegType.guest,
    user_id := none, guest_email := none, status := RegStatus.pending,
    payment_status := PayStatus.pending, amount_paid := 0, currency := "CAD",
    stripe_session_id := none, stripe_payment_intent_id := none,
    qr_code_data := none, scanned_count := 0, first_scan_at := none,
    last_scan_at := none, waitlist_joined_at := none, offer_expires_at := none,
    created_at := 0 }

/-- A published paid event with no seats left (capacity 1, one seat
already taken by a confirmed sale elsewhere) holding one `PENDING`
registration that is mid-checkout. -/
def evC1 : Event :=
  { id := 1, organizer_id := 9, category_id := none, status := EvStatus.published,
    start_date := 1000000, capacity := 1, available_seats := 0, is_free := false,
    currency := "CAD" }

def regC1 : Registration :=
  { blankReg with
    id := 2, event_id := 1, status := RegStatus.pending,
    payment_status := PayStatus.pending, amount_paid := 40 }

def dbC1 : DB := { emptyDB with events := [evC1], registrations := [regC1] }

/-- A published paid event at full remaining capacity (5 of 5 seats
free) with one waitlisted account registration, which never reserved a
seat. -/
def evC1b : Event :=
  { id := 1, organizer_id := 9, category_id := none, status := EvStatus.published,
    start_date := 1000000, capacity := 5, available_seats := 5, is_free := false,
    currency := "CAD" }

def regC1b : Registration :=
  { blankReg with
    id := 4, event_id := 1, regType := RegType.user, user_id := some 7,
    status := RegStatus.waitlist, payment_status := PayStatus.notRequired,
    waitlist_joined_at := some 10 }

def dbC1b : DB := { emptyDB with events := [evC1b], registrations := [regC1b] }

/-- A paid event with seats to spare and one `PENDING` registration whose
checkout session expires. -/
def evC4 : Event :=
  { id := 1, organizer_id := 9, category_id := none, status := EvStatus.published,
    start_date := 1000000, capacity := 10, available_seats := 5, is_free := false,
    currency := "CAD" }

def regC4 : Registration :=
  { blankReg with
    id := 3, event_id := 1, status := RegStatus.pending,
    payment_status := PayStatus.pending, amount_paid := 50 }

def dbC4 : DB := { emptyDB with events := [evC4], registrations := [regC4] }

/-- A store whose registration 2 is already `CONFIRMED` and paid. -/
def evC3 : Event :=
  { id := 1, organizer_id := 9, category_id := none, status := EvStatus.published,
    start_date := 1000000, capacity := 10, available_seats := 3, is_free := false,
    currency := "CAD" }

def regC3 : Registration :=
  { blankReg with
    id := 2, event_id := 1, status := RegStatus.confirmed,
    payment_status := PayStatus.paid, amount_paid := 40,
    qr_code_data := some "qr3" }

def dbC3 : DB := { emptyDB with events := [evC3], registrations := [regC3] }

/-- A store with a fresh (never scanned) confirmed guest registration. -/
def regC8 : Registration :=
  { blankReg with
    id := 6, event_id := 1, status := RegStatus.confirmed,
    payment_status := PayStatus.notRequired,
    guest_email := some "guest8@example.com",
    qr_code_data := some "qr8" }

def dbC8 : DB := { emptyDB with registrations := [regC8] }

/-- A published paid event with seats to spare and one active ticket
type, before any registration. -/
def evC2 : Event :=
  { id := 1, organizer_id := 9, category_id := none, status := EvStatus.published,
    start_date := 1000000, capacity := 10, available_seats := 2, is_free := false,
    currency := "CAD" }

def tkC2 : Ticket :=
  { id := 5, event_id := 1, price := 50, quantity_available := 10, quantity_sold := 0,
    is_active := true }

def dbC2 : DB := { emptyDB with events := [evC2], tickets := [tkC2] }

/-- The same store holding the `PENDING` registration that the paid
route creates, just before its payment is confirmed. -/
def dbC2pending : DB :=
  { emptyDB with
    events := [evC2], tickets := [tkC2],
    registrations := [pendingPaidRow 100 1 5 RegType.user (some 7) none 50 "CAD" 0] }

/-- Commission configuration: platform default 5 %, minimum 10, active;
the event's category carries a custom 8 % rate; the pending registration
paid 40. -/
def csC7 : CommissionSettings :=
  { default_commission_rate := 5, minimum_commission_amount := 10, is_active := true }

def catC7 : Category := { id := 3, custom_commission_rate := some 8 }

def evC7 : Event :=
  { id := 1, organizer_id := 9, category_id := some 3, status := EvStatus.published,
    start_date := 1000000, capacity := 10, available_seats := 4, is_free := false,
    currency := "CAD" }

def regC7 : Registration :=
  { blankReg with
    id := 2, event_id := 1, status := RegStatus.pending,
    payment_status := PayStatus.pending, amount_paid := 40,
    qr_code_data := some "qr7" }

def dbC7 : DB :=
  { emptyDB with
    events := [evC7], registrations := [regC7],
    commissionSettings := some csC7, categories := [catC7] }

/-- A paid event with one freed seat and three guests waitlisted at
times 10 < 20 < 30. -/
def evC5 : Event :=
  { id := 1, organizer_id := 9, category_id := none, status := EvStatus.published,
    start_date := 1000000, capacity := 3, available_seats := 1, is_free := false,
    currency := "CAD" }

def regW1 : Registration :=
  { blankReg with
    id := 11, event_id := 1, status := RegStatus.waitlist,
    payment_status := PayStatus.pending, guest_email := some "w1@example.com",
    waitlist_joined_at := some 10 }

def regW2 : Registration :=
  { blankReg with
    id := 12, event_id := 1, status := RegStatus.waitlist,
    payment_status := PayStatus.pending, guest_email := some "w2@example.com",
    waitlist_joined_at := some 20 }

def regW3 : Registration :=
  { blankReg with
    id := 13, event_id := 1, status := RegStatus.waitlist,
    payment_status := PayStatus.pending, guest_email := some "w3@example.com",
    waitlist_joined_at := some 30 }

def dbC5 : DB := { emptyDB with events := [evC5], registrations := [regW1, regW2, regW3] }

/-- A free event with one freed seat and one waitlisted guest: the
allocator's free-event promotion path crashes, so the call leaves the
store unchanged. -/
def evC5f : Event :=
  { id := 1, organizer_id := 9, category_id := none, status := EvStatus.published,
    start_date := 1000000, capacity := 3, available_seats := 1, is_free := true,
    currency := "CAD" }

def regW4 : Registration :=
  { blankReg with
    id := 14, event_id := 1, status := RegStatus.waitlist,
    payment_status := PayStatus.notRequired, guest_email := some "w4@example.com",
    waitlist_joined_at := some 10 }

def dbC5f : DB := { emptyDB with events := [evC5f], registrations := [regW4] }

/-- A paid event whose only registration holds an `OFFERED` seat whose
one-hour purchase window (deadline 100) has passed at time 200. -/
def evC6 : Event :=
  { id := 1, organizer_id := 9, category_id := none, status := EvStatus.published,
    start_date := 1000000, capacity := 1, available_seats := 0, is_free := false,
    currency := "CAD" }

def regO : Registration :=
  { blankReg with
    id := 21, event_id := 1, status := RegStatus.offered,
    payment_status := PayStatus.pending, guest_email := some "o@example.com",
    stripe_session_id := some "sX", waitlist_joined_at := some 5,
    offer_expires_at := some 100 }

def dbC6 : DB := { emptyDB with events := [evC6], registrations := [regO] }

/-- A full free event together with a `CONFIRMED` registration held by
the very guest e-mail that will ask for another spot. -/
def evC9 : Event :=
  { id := 1, organizer_id := 9, category_id := none, status := EvStatus.published,
    start_date := 1000000, capacity := 2, available_seats := 0, is_free := true,
    currency := "CAD" }

def regC9 : Registration :=
  { blankReg with
    id := 50, event_id := 1, status := RegStatus.confirmed,
    payment_status := PayStatus.notRequired,
    guest_email := some "dup@example.com", qr_code_data := some "qr9" }

def dbC9 : DB := { emptyDB with events := [evC9], registrations := [regC9] }

/-- A store with a single non-confirmed (`PENDING`) registration carrying
a QR token. -/
def regC10 : Registration :=
  { blankReg with
    id := 4, event_id := 1, qr_code_data := some "qr1",
    status := RegStatus.pending }

def dbC10 : DB := { emptyDB with registrations := [regC10] }

/-! ## Theorems -/

/-! ### Generic facts about keyed row replacement -/

theorem find?_replace_of_ne {α : Type} (key : α → Nat) (v : α) (k : Nat) (l : List α)
    (h : key v ≠ k) :
    (l.map (fun x => if key x == key v then v else x)).find? (fun x => key x == k)
      = l.find? (fun x => key x == k) := by
  induction l with
  | nil => rfl
  | cons a as ih =>
    simp only [List.map_cons, List.find?_cons]
    by_cases ha : (key a == key v) = true
    · have hav : key a = key v := by simpa [beq_iff_eq] using ha
      have hvk : (key v == k) = false := by simp [beq_iff_eq, h]
      have hak : (key a == k) = false := by simp [beq_iff_eq, hav, h]
      rw [if_pos ha, hvk, hak]
      exact ih
    · rw [if_neg ha]
      cases hak : key a == k
      · exact ih
      · rfl

theorem find?_replace_self {α : Type} (key : α → Nat) (v : α) (l : List α)
    (h : (l.find? (fun x => key x == key v)).isSome) :
    (l.map (fun x => if key x == key v then v else x)).find? (fun x => key x == key v)
      = some v := by
  induction l with
  | nil => simp [List.find?] at h
  | cons a as ih =>
    simp only [List.map_cons, List.find?_cons]
    by_cases ha : (key a == key v) = true
    · rw [if_pos ha]
      have hvv : (key v == key v) = true := by simp
      rw [hvv]
    · rw [if_neg ha]
      have ha' : (key a == key v) = false := by
        cases hb : key a == key v
        · rfl
        · exact absurd hb ha
      rw [ha']
      have h' : (as.find? (fun x => key x == key v)).isSome := by
        rw [List.find?_cons, ha'] at h
        exact h
      exact ih h'

theorem map_key_replace {α : Type} (key : α → Nat) (v : α) (l : List α) :
    (l.map (fun x => if key x == key v then v else x)).map key = l.map key := by
  induction l with
  | nil => rfl
  | cons a as ih =>
    simp only [List.map_cons]
    by_cases ha : (key a == key v) = true
    · have hav : key a = key v := by simpa [beq_iff_eq] using ha
      rw [if_pos ha, ih, hav]
    · rw [if_neg ha, ih]

theorem mem_replace {α : Type} {key : α → Nat} {v x : α} {l : List α}
    (hx : x ∈ l.map (fun y => if key y == key v then v else y)) :
    x ∈ l ∨ x = v := by
  rcases List.mem_map.mp hx with ⟨y, hy, hxy⟩
  by_cases h : (key y == key v) = true
  · right
    rw [if_pos h] at hxy
    exact hxy.symm
  · left
    rw [if_neg h] at hxy
    exact hxy ▸ hy

theorem mem_of_nodup_key_find? {α : Type} {key : α → Nat} {l : List α} {k : Nat}
    {z x : α} (hnd : (l.map key).Nodup) (hf : l.find? (fun y => key y == k) = some z)
    (hx : x ∈ l) (hk : key x = k) : x = z := by
  have hz : z ∈ l := List.mem_of_find?_eq_some hf
  have hzk : key z = k := by simpa [beq_iff_eq] using List.find?_some hf
  exact List.inj_on_of_nodup_map hnd hx hz (by rw [hk, hzk])

/-! ### Row updates leave the other tables untouched -/

theorem findReg_updateEvent (db : DB) (e : Event) (rid : Nat) :
    findReg (updateEvent db e) rid = findReg db rid := rfl

theorem findReg_updateTicket (db : DB) (t : Ticket) (rid : Nat) :
    findReg (updateTicket db t) rid = findReg db rid := rfl

theorem findEvent_updateReg (db : DB) (r : Registration) (eid : Nat) :
    findEvent (updateReg db r) eid = findEvent db eid := rfl

theorem findEvent_updateTicket (db : DB) (t : Ticket) (eid : Nat) :
    findEvent (updateTicket db t) eid = findEvent db eid := rfl

theorem findTicket_updateReg (db : DB) (r : Registration) (tid : Nat) :
    findTicket (updateReg db r) tid = findTicket db tid := rfl

theorem findTicket_updateEvent (db : DB) (e : Event) (tid : Nat) :
    findTicket (updateEvent db e) tid = findTicket db tid := rfl

theorem events_postCommission (db : DB) (cs : CommissionSettings)
    (reg : Registration) (ev : Event) :
    (postCommission db cs reg ev).events = db.events := by
  unfold postCommission
  split <;> rfl

theorem registrations_postCommission (db : DB) (cs : CommissionSettings)
    (reg : Registration) (ev : Event) :
    (postCommission db cs reg ev).registrations = db.registrations := by
  unfold postCommission
  split <;> rfl

theorem tickets_postCommission (db : DB) (cs : CommissionSettings)
    (reg : Registration) (ev : Event) :
    (postCommission db cs reg ev).tickets = db.tickets := by
  unfold postCommission
  split <;> rfl

theorem findReg_updateReg_of_ne (db : DB) (r : Registration) (rid : Nat) (h : r.id ≠ rid) :
    findReg (updateReg db r) rid = findReg db rid :=
  find?_replace_of_ne (fun x : Registration => x.id) r rid db.registrations h

theorem findReg_updateReg_self (db : DB) (r : Registration)
    (h : (findReg db r.id).isSome) :
    findReg (updateReg db r) r.id = some r :=
  find?_replace_self (fun x : Registration => x.id) r db.registrations h

theorem findEvent_updateEvent_of_ne (db : DB) (e : Event) (eid : Nat) (h : e.id ≠ eid) :
    findEvent (updateEvent db e) eid = findEvent db eid :=
  find?_replace_of_ne (fun x : Event => x.id) e eid db.events h

theorem findEvent_updateEvent_self (db : DB) (e : Event)
    (h : (findEvent db e.id).isSome) :
    findEvent (updateEvent db e) e.id = some e :=
  find?_replace_self (fun x : Event => x.id) e db.events h

theorem findTicket_updateTicket_self (db : DB) (t : Ticket)
    (h : (findTicket db t.id).isSome) :
    findTicket (updateTicket db t) t.id = some t :=
  find?_replace_self (fun x : Ticket => x.id) t db.tickets h

/-! ### Facts about the shared confirmation helpers -/

theorem confirmedRegOf_id (reg : Registration) (sid : String) (pi : Option String)
    (fq : String) : (confirmedRegOf reg sid pi fq).id = reg.id := by
  unfold confirmedRegOf
  dsimp only
  split <;> rfl

theorem confirmedRegOf_status (reg : Registration) (sid : String) (pi : Option String)
    (fq : String) : (confirmedRegOf reg sid pi fq).status = RegStatus.confirmed := by
  unfold confirmedRegOf
  dsimp only
  split <;> rfl

theorem registrations_applyInventory (db : DB) (reg : Registration) (c : Bool) :
    (applyInventoryOnConfirm db reg c).registrations = db.registrations := by
  unfold applyInventoryOnConfirm
  dsimp only
  repeat' split
  all_goals rfl

theorem findReg_applyInventory (db : DB) (reg : Registration) (c : Bool) (rid : Nat) :
    findReg (applyInventoryOnConfirm db reg c) rid = findReg db rid := by
  unfold applyInventoryOnConfirm
  dsimp only
  repeat' split
  all_goals rfl

theorem commissions_applyInventory (db : DB) (reg : Registration) (c : Bool) :
    (applyInventoryOnConfirm db reg c).commissions = db.commissions := by
  unfold applyInventoryOnConfirm
  dsimp only
  repeat' split
  all_goals rfl

theorem commissionSettings_applyInventory (db : DB) (reg : Registration) (c : Bool) :
    (applyInventoryOnConfirm db reg c).commissionSettings = db.commissionSettings := by
  unfold applyInventoryOnConfirm
  dsimp only
  repeat' split
  all_goals rfl

theorem categories_applyInventory (db : DB) (reg : Registration) (c : Bool) :
    (applyInventoryOnConfirm db reg c).categories = db.categories := by
  unfold applyInventoryOnConfirm
  dsimp only
  repeat' split
  all_goals rfl

theorem findReg_id (db : DB) (rid : Nat) (reg : Registration)
    (h : findReg db rid = some reg) : reg.id = rid := by
  unfold findReg at h
  simpa using List.find?_some h

theorem findReg_congr (db1 db2 : DB) (rid : Nat)
    (h : db1.registrations = db2.registrations) :
    findReg db1 rid = findReg db2 rid := by
  unfold findReg
  rw [h]

/-- Every `completed` outcome of the webhook leaves, at the confirmed
registration's id, exactly the mutated row produced by
`confirmedRegOf`. -/
theorem webhook_completed_confirms (db db1 : DB) (rid rid2 : Nat) (sid : String)
    (pi : Option String) (fq : String)
    (h : stripeWebhookCompleted db (some rid) sid pi fq = (db1, WebhookResult.completed rid2)) :
    ∃ reg, findReg db rid = some reg
      ∧ findReg db1 rid = some (confirmedRegOf reg sid pi fq) := by
  unfold stripeWebhookCompleted at h
  dsimp only at h
  cases hfind : findReg db rid with
  | none =>
    rw [hfind] at h
    simp at h
  | some reg =>
    rw [hfind] at h
    dsimp only at h
    by_cases hc : reg.status = RegStatus.confirmed
    · rw [if_pos hc] at h
      simp at h
    · rw [if_neg hc] at h
      by_cases hq : reg.qr_code_data = none
      · rw [if_pos hq] at h
        simp at h
      · rw [if_neg hq] at h
        have hkey : findReg (applyInventoryOnConfirm
              (updateReg db (confirmedRegOf reg sid pi fq)) reg false) rid
            = some (confirmedRegOf reg sid pi fq) := by
          rw [findReg_applyInventory]
          have hid : (confirmedRegOf reg sid pi fq).id = rid := by
            rw [confirmedRegOf_id]
            exact findReg_id db rid reg hfind
          rw [← hid]
          exact findReg_updateReg_self db _ (by rw [hid, hfind]; rfl)
        split at h
        · -- settings present
          split at h
          · split at h
            · -- event missing: crashed ≠ completed
              simp at h
            · -- commission posted
              have hdb := ((Prod.mk.injEq _ _ _ _).mp h).1
              refine ⟨reg, rfl, ?_⟩
              rw [← hdb]
              rw [findReg_congr _ _ rid (registrations_postCommission _ _ _ _)]
              exact hkey
          · have hdb := ((Prod.mk.injEq _ _ _ _).mp h).1
            refine ⟨reg, rfl, ?_⟩
            rw [← hdb]
            exact hkey
        · have hdb := ((Prod.mk.injEq _ _ _ _).mp h).1
          refine ⟨reg, rfl, ?_⟩
          rw [← hdb]
          exact hkey

/-! ### Claim C3 -/

/-- C3 counterexample: for the canonical fresh payment — a paid `PENDING`
registration with no QR token yet — the gateway webhook never confirms:
`webhooks.py` line 193 raises `NameError` (`settings` is never bound in
the module) before the single commit at line 279, so the callback fails
with the store unchanged and an identical redelivery fails identically.
Two identical callbacks produce zero `CONFIRMED` transitions and zero
commission rows, not one. -/
theorem c3_counterexample :
    stripeWebhookCompleted dbC1 (some 2) "cs1" (some "pi1") "qr1"
        = (dbC1, WebhookResult.crashed)
    ∧ stripeWebhookCompleted
        (stripeWebhookCompleted dbC1 (some 2) "cs1" (some "pi1") "qr1").1
        (some 2) "cs1" (some "pi1") "qr1"
        = (dbC1, WebhookResult.crashed)
    ∧ regC1.status = RegStatus.pending ∧ regC1.qr_code_data = none
    ∧ findReg dbC1 2 = some regC1
    ∧ dbC1.commissions = [] := by
  exact ⟨rfl, rfl, rfl, rfl, rfl, rfl⟩

/-- Every `confirmed` outcome of the fallback leaves, at the confirmed
registration's id, exactly the mutated row produced by
`confirmedRegOf`. -/
theorem fallback_confirmedNow_confirms (db db1 : DB) (rid rid2 : Nat) (sid : String)
    (pi : Option String) (fq : String)
    (h : confirmPaymentFallback db true true (some rid) sid pi fq
      = (db1, ConfirmResult.confirmedNow rid2)) :
    ∃ reg, findReg db rid = some reg
      ∧ findReg db1 rid = some (confirmedRegOf reg sid pi fq) := by
  unfold confirmPaymentFallback at h
  rw [if_neg (by simp), if_neg (by simp)] at h
  dsimp only at h
  cases hfind : findReg db rid with
  | none =>
    rw [hfind] at h
    simp at h
  | some reg =>
    rw [hfind] at h
    dsimp only at h
    by_cases hc : reg.status = RegStatus.confirmed
    · rw [if_pos hc] at h
      simp at h
    · rw [if_neg hc] at h
      have hkey : findReg (applyInventoryOnConfirm
            (updateReg db (confirmedRegOf reg sid pi fq)) reg true) rid
          = some (confirmedRegOf reg sid pi fq) := by
        rw [findReg_applyInventory]
        have hid : (confirmedRegOf reg sid pi fq).id = rid := by
          rw [confirmedRegOf_id]
          exact findReg_id db rid reg hfind
        rw [← hid]
        exact findReg_updateReg_self db _ (by rw [hid, hfind]; rfl)
      split at h
      · -- settings present
        split at h
        · split at h
          · -- event missing: confirmed only when a commission row already exists
            split at h
            · have hdb := ((Prod.mk.injEq _ _ _ _).mp h).1
              refine ⟨reg, rfl, ?_⟩
              rw [← hdb]
              exact hkey
            · simp at h
          · -- commission posted
            have hdb := ((Prod.mk.injEq _ _ _ _).mp h).1
            refine ⟨reg, rfl, ?_⟩
            rw [← hdb]
            rw [findReg_congr _ _ rid (registrations_postCommission _ _ _ _)]
            exact hkey
        · have hdb := ((Prod.mk.injEq _ _ _ _).mp h).1
          refine ⟨reg, rfl, ?_⟩
          rw [← hdb]
          exact hkey
      · have hdb := ((Prod.mk.injEq _ _ _ _).mp h).1
        refine ⟨reg, rfl, ?_⟩
        rw [← hdb]
        exact hkey

/-- C3 amended: an already-`CONFIRMED` registration makes both
confirmation entry points answer success with the store untouched
(idempotence); a webhook redelivery after a `completed` webhook
transition answers `already_processed` with the store untouched; a
fallback retry after a `confirmed` fallback transition answers success
with the store untouched — so duplicates of a *successful* confirmation
produce exactly one `CONFIRMED` transition and at most one commission
posting.  The webhook, however, can only complete for a registration
that already carries a QR token: on a QR-less row it fails before any
commit with the store unchanged, so identical webhook callbacks for a
fresh payment produce zero transitions; the once-only confirmation of
such rows is provided by the fallback. -/
theorem c3_confirmation_idempotent (db : DB) (rid : Nat) (sid : String)
    (pi : Option String) (fq : String) :
    (∀ reg, findReg db rid = some reg → reg.status = RegStatus.confirmed →
      stripeWebhookCompleted db (some rid) sid pi fq = (db, WebhookResult.alreadyProcessed)
      ∧ confirmPaymentFallback db true true (some rid) sid pi fq
          = (db, ConfirmResult.alreadyConfirmed rid)
      ∧ (ConfirmResult.alreadyConfirmed rid).isSuccess = true)
    ∧ (∀ db1 rid2,
      stripeWebhookCompleted db (some rid) sid pi fq = (db1, WebhookResult.completed rid2) →
      stripeWebhookCompleted db1 (some rid) sid pi fq = (db1, WebhookResult.alreadyProcessed))
    ∧ (∀ db1 rid2,
      confirmPaymentFallback db true true (some rid) sid pi fq
          = (db1, ConfirmResult.confirmedNow rid2) →
      confirmPaymentFallback db1 true true (some rid) sid pi fq
          = (db1, ConfirmResult.alreadyConfirmed rid))
    ∧ (∀ reg, findReg db rid = some reg → reg.status ≠ RegStatus.confirmed →
      reg.qr_code_data = none →
      stripeWebhookCompleted db (some rid) sid pi fq = (db, WebhookResult.crashed)) := by
  refine ⟨?_, ?_, ?_, ?_⟩
  · intro reg hfind hconf
    refine ⟨?_, ?_, rfl⟩
    · unfold stripeWebhookCompleted
      simp only [hfind]
      rw [if_pos hconf]
    · unfold confirmPaymentFallback
      rw [if_neg (by simp), if_neg (by simp)]
      simp only [hfind]
      rw [if_pos hconf]
  · intro db1 rid2 h
    obtain ⟨reg, -, hf1⟩ := webhook_completed_confirms db db1 rid rid2 sid pi fq h
    unfold stripeWebhookCompleted
    simp only [hf1]
    rw [if_pos (confirmedRegOf_status reg sid pi fq)]
  · intro db1 rid2 h
    obtain ⟨reg, -, hf1⟩ := fallback_confirmedNow_confirms db db1 rid rid2 sid pi fq h
    unfold confirmPaymentFallback
    rw [if_neg (by simp), if_neg (by simp)]
    simp only [hf1]
    rw [if_pos (confirmedRegOf_status reg sid pi fq)]
  · intro reg hfind hnc hq
    unfold stripeWebhookCompleted
    simp only [hfind]
    rw [if_neg hnc, if_pos hq]

/-- C3 witness: on concrete stores, both entry points answer success and
leave an already-confirmed row's store untouched, and a webhook callback
on a QR-less pending row fails with its store untouched. -/
theorem c3_witness :
    stripeWebhookCompleted dbC3 (some 2) "s1" (some "p1") "q1"
        = (dbC3, WebhookResult.alreadyProcessed)
    ∧ confirmPaymentFallback dbC3 true true (some 2) "s1" (some "p1") "q1"
        = (dbC3, ConfirmResult.alreadyConfirmed 2)
    ∧ stripeWebhookCompleted dbC1 (some 2) "s1" (some "p1") "q1"
        = (dbC1, WebhookResult.crashed) := by
  have h := (c3_confirmation_idempotent dbC3 2 "s1" (some "p1") "q1").1 regC3
    (by rfl) (by rfl)
  have h4 := (c3_confirmation_idempotent dbC1 2 "s1" (some "p1") "q1").2.2.2 regC1
    (by rfl) (by decide) (by rfl)
  exact ⟨h.1, h.2.1, h4⟩

/-! ### Claim C1 -/

/-- C1 claims that after every core operation every event satisfies
`0 ≤ available_seats ≤ capacity`.  The cancellation path breaks the
upper bound: `cancel_registration` increments `available_seats`
unconditionally (`registrations.py` line 1521) even when the cancelled
registration is a `WAITLIST` row that never held a seat, and commits.
On the concrete store — event at full remaining capacity (5 of 5 seats
free) with one waitlisted account registration — the owner's
cancellation succeeds and leaves `available_seats = 6 > capacity = 5`
(the follow-up waitlist-allocator pass finds no remaining `WAITLIST`
row and changes nothing). -/
theorem c1_available_seats_invariant_broken :
    (cancelRegistration dbC1b 4 7 0 true "qr2" none).2 = CancelResult.ok
    ∧ findEvent (cancelRegistration dbC1b 4 7 0 true "qr2" none).1 1
        = some { evC1b with available_seats := 6 }
    ∧ evC1b.available_seats = 5 ∧ evC1b.capacity = 5
    ∧ regC1b.status = RegStatus.waitlist := by
  exact ⟨rfl, rfl, rfl, rfl, rfl⟩

/-! ### Claim C4 -/

/-- C4 claims that handling a payment-session expiry releases reserved
inventory (`available_seats` incremented, `quantity_sold` decremented).
Counterexample: on a store whose event has 5 free seats, expiring its
`PENDING` registration flips the registration to `CANCELLED`/`FAILED`
but leaves the event row — and with it `available_seats = 5` — exactly
as it was. -/
theorem c4_counterexample :
    (stripeWebhookExpired dbC4 (some 3)).events = dbC4.events
    ∧ findEvent (stripeWebhookExpired dbC4 (some 3)) 1 = some evC4
    ∧ findReg (stripeWebhookExpired dbC4 (some 3)) 3
        = some { regC4 with
                 status := RegStatus.cancelled,
                 payment_status := PayStatus.failed } := by
  exact ⟨rfl, rfl, rfl⟩

/-- C4 amended: on payment-session expiry the registration transitions
`PENDING → CANCELLED` with `payment_status = FAILED`, and nothing else
changes: the handler touches neither the events table nor the tickets
table — consistently with the fact that a paid registration never
reserved inventory at creation. -/
theorem c4_amended_expiry_releases_nothing (db : DB) (rid : Nat) (reg : Registration)
    (hfind : findReg db rid = some reg) :
    stripeWebhookExpired db (some rid)
      = updateReg db { reg with
                       status := RegStatus.cancelled,
                       payment_status := PayStatus.failed }
    ∧ (stripeWebhookExpired db (some rid)).events = db.events
    ∧ (stripeWebhookExpired db (some rid)).tickets = db.tickets := by
  unfold stripeWebhookExpired
  simp only [hfind]
  refine ⟨?_, ?_, ?_⟩ <;> first
    | rfl
    | trivial

/-- C4 witness: the amended statement evaluated on the concrete store. -/
theorem c4_amended_witness :
    stripeWebhookExpired dbC4 (some 3)
      = updateReg dbC4 { regC4 with
                         status := RegStatus.cancelled,
                         payment_status := PayStatus.failed } :=
  (c4_amended_expiry_releases_nothing dbC4 3 regC4 (by rfl)).1

/-! ### Claim C8 -/

/-- C8: QR scan classification of a `CONFIRMED` registration follows the
scan count.  A first scan (count 0) answers `valid = true`, grants
access, and sets `first_scan_at` and the counter to 1; a second scan
answers `valid = false` reporting the minutes elapsed since the first
scan; every scan with count ≥ 2 answers `valid = false` classified as
fraud with the participant e-mail withheld.  Every scan increments the
counter by one and sets `last_scan_at`. -/
theorem c8_scan_classification (db : DB) (token : String) (now : Nat)
    (reg : Registration) (hfind : findRegByQr db token = some reg)
    (hst : reg.status = RegStatus.confirmed) :
    (reg.scanned_count = 0 →
      verifyQrCode db token now
        = (updateReg db { reg with
                          scanned_count := 1, first_scan_at := some now,
                          last_scan_at := some now },
           some { valid := true, verdict := QRVerdict.firstUse,
                  participant_email := participantEmail db reg }))
    ∧ (∀ f, reg.scanned_count = 1 → reg.first_scan_at = some f →
      verifyQrCode db token now
        = (updateReg db { reg with
                          scanned_count := 2, last_scan_at := some now },
           some { valid := false,
                  verdict := QRVerdict.suspiciousRepeat (((now : Int) - (f : Int)).tdiv 60),
                  participant_email := participantEmail db reg }))
    ∧ (2 ≤ reg.scanned_count →
      verifyQrCode db token now
        = (updateReg db { reg with
                          scanned_count := reg.scanned_count + 1,
                          last_scan_at := some now },
           some { valid := false, verdict := QRVerdict.fraud (reg.scanned_count + 1),
                  participant_email := none })) := by
  have hne : ¬ reg.status ≠ RegStatus.confirmed := by simp [hst]
  unfold verifyQrCode
  simp only [hfind]
  rw [if_neg hne]
  refine ⟨?_, ?_, ?_⟩
  · intro h0
    rw [if_pos h0]
  · intro f h1 hf
    have h0 : ¬ reg.scanned_count = 0 := by omega
    rw [if_neg h0, if_pos h1]
    simp only [h1, hf]
  · intro h2
    have h0 : ¬ reg.scanned_count = 0 := by omega
    have h1 : ¬ reg.scanned_count = 1 := by omega
    rw [if_neg h0, if_neg h1]

/-- C8 witness: a first scan of a fresh confirmed registration. -/
theorem c8_witness :
    verifyQrCode dbC8 "qr8" 120
      = (updateReg dbC8 { regC8 with
                          scanned_count := 1, first_scan_at := some 120,
                          last_scan_at := some 120 },
         some { valid := true, verdict := QRVerdict.firstUse,
                participant_email := some "guest8@example.com" }) :=
  (c8_scan_classification dbC8 "qr8" 120 regC8 (by rfl) (by rfl)).1 (by rfl)

/-! ### Claim C10 -/

/-- C10: when the scanned QR token resolves to a registration whose
status is not `CONFIRMED`, the public verification route answers
`valid = false` and the store is returned untouched — no scan counter,
scan timestamp or any other column is written. -/
theorem c10_non_confirmed_scan_no_mutation (db : DB) (token : String) (now : Nat)
    (reg : Registration) (hfind : findRegByQr db token = some reg)
    (hst : reg.status ≠ RegStatus.confirmed) :
    verifyQrCode db token now
      = (db, some { valid := false, verdict := QRVerdict.invalidStatus reg.status,
                    participant_email := none }) := by
  unfold verifyQrCode
  simp only [hfind]
  rw [if_pos hst]

/-- C10 witness: scanning the token of a `PENDING` registration. -/
theorem c10_witness :
    verifyQrCode dbC10 "qr1" 50
      = (dbC10, some { valid := false,
                       verdict := QRVerdict.invalidStatus RegStatus.pending,
                       participant_email := none }) :=
  c10_non_confirmed_scan_no_mutation dbC10 "qr1" 50 regC10 (by rfl) (by decide)

/-! ### Claim C9 -/

/-- C9: when an event is full (`available_seats ≤ 0`), every one of the
four registration routes appends a fresh `WAITLIST` registration and
returns a waitlist placement, with no hypothesis whatsoever on the
existing registrations — the duplicate-registration guard sits after the
full-event branch and is never consulted — so the same guest e-mail or
user id can already hold a `CONFIRMED` (or earlier `WAITLIST`)
registration for that event. -/
theorem c9_full_event_waitlists_without_dup_guard (db : DB) (eid : Nat) (email : String)
    (uid newId now : Nat) (fq : String) (reuseOk : Bool) (sess : Option String)
    (ev : Event) (hev : findPublishedEvent db eid = some ev)
    (hfull : ev.available_seats ≤ 0) :
    (ev.is_free = true →
      registerGuestToEvent db eid email none newId now fq
        = (addReg db (waitlistRow newId eid none RegType.guest none (some email)
            PayStatus.notRequired 0 ev.currency now), RegResult.waitlisted newId)
      ∧ registerUserToEvent db eid uid none newId now fq reuseOk
        = (addReg db (waitlistRow newId eid none RegType.user (some uid) none
            PayStatus.notRequired 0 ev.currency now), RegResult.waitlisted newId))
    ∧ (ev.is_free = false → ∀ tid t, validateTicket db eid tid = Except.ok t →
      registerGuestToPaidEvent db eid email (some tid) newId now reuseOk sess
        = (addReg db (waitlistRow newId eid (some t.id) RegType.guest none (some email)
            PayStatus.pending t.price ev.currency now), RegResult.waitlisted newId)
      ∧ registerUserToPaidEvent db eid uid (some tid) newId now sess
        = (addReg db (waitlistRow newId eid (some t.id) RegType.user (some uid) none
            PayStatus.pending t.price ev.currency now), RegResult.waitlisted newId)) := by
  constructor
  · intro hf
    constructor
    · unfold registerGuestToEvent
      simp only [hev]
      rw [if_neg (by simp [hf])]
      try dsimp only
      rw [if_pos hfull]
      try rfl
    · unfold registerUserToEvent
      simp only [hev]
      rw [if_neg (by simp [hf])]
      try dsimp only
      rw [if_pos hfull]
      try rfl
  · intro hf tid t hvt
    constructor
    · unfold registerGuestToPaidEvent
      simp only [hev]
      rw [if_neg (by simp [hf])]
      try dsimp only
      simp only [hvt]
      rw [if_pos hfull]
    · unfold registerUserToPaidEvent
      simp only [hev]
      rw [if_neg (by simp [hf])]
      try dsimp only
      simp only [hvt]
      rw [if_pos hfull]

/-- C9 witness: on a full free event whose store already holds a
`CONFIRMED` registration for `dup@example.com`, two successive guest
registration calls from that same e-mail each append one more `WAITLIST`
registration. -/
theorem c9_witness :
    registerGuestToEvent dbC9 1 "dup@example.com" none 101 500 "q9a"
      = (addReg dbC9 (waitlistRow 101 1 none RegType.guest none (some "dup@example.com")
          PayStatus.notRequired 0 "CAD" 500), RegResult.waitlisted 101)
    ∧ registerGuestToEvent
        (addReg dbC9 (waitlistRow 101 1 none RegType.guest none (some "dup@example.com")
          PayStatus.notRequired 0 "CAD" 500)) 1 "dup@example.com" none 102 501 "q9b"
      = (addReg
          (addReg dbC9 (waitlistRow 101 1 none RegType.guest none (some "dup@example.com")
            PayStatus.notRequired 0 "CAD" 500))
          (waitlistRow 102 1 none RegType.guest none (some "dup@example.com")
            PayStatus.notRequired 0 "CAD" 501), RegResult.waitlisted 102) := by
  have h1 := ((c9_full_event_waitlists_without_dup_guard dbC9 1 "dup@example.com" 7 101 500
    "q9a" true none evC9 (by rfl) (by decide)).1 (by rfl)).1
  have h2 := ((c9_full_event_waitlists_without_dup_guard
    (addReg dbC9 (waitlistRow 101 1 none RegType.guest none (some "dup@example.com")
      PayStatus.notRequired 0 "CAD" 500)) 1 "dup@example.com" 7 102 501
    "q9b" true none evC9 (by rfl) (by decide)).1 (by rfl)).1
  exact ⟨h1, h2⟩

/-! ### Claim C2 -/

theorem findEvent_id (db : DB) (eid : Nat) (ev : Event)
    (h : findEvent db eid = some ev) : ev.id = eid := by
  unfold findEvent at h
  simpa using List.find?_some h

theorem findTicket_id (db : DB) (tid : Nat) (tk : Ticket)
    (h : findTicket db tid = some tk) : tk.id = tid := by
  unfold findTicket at h
  simpa using List.find?_some h

theorem findEvent_postCommission (db : DB) (cs : CommissionSettings)
    (reg : Registration) (ev : Event) (eid : Nat) :
    findEvent (postCommission db cs reg ev) eid = findEvent db eid := by
  unfold postCommission
  split <;> rfl

theorem findTicket_postCommission (db : DB) (cs : CommissionSettings)
    (reg : Registration) (ev : Event) (tid : Nat) :
    findTicket (postCommission db cs reg ev) tid = findTicket db tid := by
  unfold postCommission
  split <;> rfl

/-- The inventory step applied at confirmation rewrites the owning event
row with the (optionally clamped) decremented seat count. -/
theorem findEvent_applyInventory_self (db : DB) (reg : Registration) (c : Bool) (ev : Event)
    (hev : findEvent db reg.event_id = some ev) :
    findEvent (applyInventoryOnConfirm db reg c) reg.event_id
      = some { ev with available_seats :=
          if c then max 0 (ev.available_seats - 1) else ev.available_seats - 1 } := by
  have hid : ev.id = reg.event_id := findEvent_id db reg.event_id ev hev
  have hsome : (findEvent db ev.id).isSome := by rw [hid, hev]; rfl
  have hkey := findEvent_updateEvent_self db
    { ev with available_seats :=
        if c then max 0 (ev.available_seats - 1) else ev.available_seats - 1 } hsome
  unfold applyInventoryOnConfirm
  dsimp only
  rw [hev]
  split
  · split
    · rw [findEvent_updateTicket]
      rw [← hid]
      exact hkey
    · rw [← hid]
      exact hkey
  · rw [← hid]
    exact hkey

/-- The inventory step applied at confirmation rewrites the sold ticket
row with the incremented sale counter. -/
theorem findTicket_applyInventory_self (db : DB) (reg : Registration) (c : Bool)
    (tid : Nat) (tk : Ticket) (htid : reg.ticket_id = some tid)
    (htk : findTicket db tid = some tk) :
    findTicket (applyInventoryOnConfirm db reg c) tid
      = some { tk with quantity_sold := tk.quantity_sold + 1 } := by
  have hid : tk.id = tid := findTicket_id db tid tk htk
  have main : ∀ d2 : DB, d2.tickets = db.tickets →
      findTicket (match findTicket d2 tid with
        | some t => updateTicket d2 { t with quantity_sold := t.quantity_sold + 1 }
        | none => d2) tid = some { tk with quantity_sold := tk.quantity_sold + 1 } := by
    intro d2 htq
    have htk2 : findTicket d2 tid = some tk := by
      unfold findTicket
      rw [htq]
      exact htk
    rw [htk2]
    have hsome : (findTicket d2 tk.id).isSome := by rw [hid, htk2]; rfl
    rw [← hid]
    exact findTicket_updateTicket_self d2 _ hsome
  unfold applyInventoryOnConfirm
  dsimp only
  rw [htid]
  cases findEvent db reg.event_id with
  | none => exact main db rfl
  | some ev => exact main _ rfl

/-- Payment confirmation through the webhook — reachable only for a
registration already carrying a QR token — reserves the seat: the owning
event's `available_seats` is decremented by one (with no floor). -/
theorem webhook_decrements_seats (db2 : DB) (rid : Nat) (reg : Registration) (ev2 : Event)
    (sid : String) (pi : Option String) (fq : String)
    (hfind : findReg db2 rid = some reg) (hnc : reg.status ≠ RegStatus.confirmed)
    (hqr : reg.qr_code_data ≠ none)
    (hev : findEvent db2 reg.event_id = some ev2) :
    findEvent (stripeWebhookCompleted db2 (some rid) sid pi fq).1 reg.event_id
      = some { ev2 with available_seats := ev2.available_seats - 1 } := by
  unfold stripeWebhookCompleted
  dsimp only
  simp only [hfind]
  rw [if_neg hnc, if_neg hqr]
  have hevD1 : findEvent (updateReg db2 (confirmedRegOf reg sid pi fq)) reg.event_id
      = some ev2 := hev
  have hD3 := findEvent_applyInventory_self
    (updateReg db2 (confirmedRegOf reg sid pi fq)) reg false ev2 hevD1
  simp only [hevD1]
  split
  · split
    · rw [findEvent_postCommission]
      exact hD3
    · exact hD3
  · exact hD3

/-- Payment confirmation through the webhook — reachable only for a
registration already carrying a QR token — also books the sale on the
ticket type: `quantity_sold` is incremented by one. -/
theorem webhook_increments_sold (db2 : DB) (rid : Nat) (reg : Registration) (ev2 : Event)
    (tid : Nat) (tk : Ticket) (sid : String) (pi : Option String) (fq : String)
    (hfind : findReg db2 rid = some reg) (hnc : reg.status ≠ RegStatus.confirmed)
    (hqr : reg.qr_code_data ≠ none)
    (hev : findEvent db2 reg.event_id = some ev2)
    (htid : reg.ticket_id = some tid) (htk : findTicket db2 tid = some tk) :
    findTicket (stripeWebhookCompleted db2 (some rid) sid pi fq).1 tid
      = some { tk with quantity_sold := tk.quantity_sold + 1 } := by
  unfold stripeWebhookCompleted
  dsimp only
  simp only [hfind]
  rw [if_neg hnc, if_neg hqr]
  have hevD1 : findEvent (updateReg db2 (confirmedRegOf reg sid pi fq)) reg.event_id
      = some ev2 := hev
  have htkD1 : findTicket (updateReg db2 (confirmedRegOf reg sid pi fq)) tid
      = some tk := htk
  have hD3 := findTicket_applyInventory_self
    (updateReg db2 (confirmedRegOf reg sid pi fq)) reg false tid tk htid htkD1
  simp only [hevD1]
  split
  · split
    · rw [findTicket_postCommission]
      exact hD3
    · exact hD3
  · exact hD3

/-- Payment confirmation through the client fallback reserves the seat:
the owning event's `available_seats` is decremented by one, floored at
zero (`registrations.py` lines 1059-1063). -/
theorem fallback_decrements_seats (db2 : DB) (rid : Nat) (reg : Registration) (ev2 : Event)
    (sid : String) (pi : Option String) (fq : String)
    (hfind : findReg db2 rid = some reg) (hnc : reg.status ≠ RegStatus.confirmed)
    (hev : findEvent db2 reg.event_id = some ev2) :
    findEvent (confirmPaymentFallback db2 true true (some rid) sid pi fq).1 reg.event_id
      = some { ev2 with available_seats := max 0 (ev2.available_seats - 1) } := by
  unfold confirmPaymentFallback
  rw [if_neg (by simp), if_neg (by simp)]
  dsimp only
  simp only [hfind]
  rw [if_neg hnc]
  have hevD1 : findEvent (updateReg db2 (confirmedRegOf reg sid pi fq)) reg.event_id
      = some ev2 := hev
  have hD3 := findEvent_applyInventory_self
    (updateReg db2 (confirmedRegOf reg sid pi fq)) reg true ev2 hevD1
  simp only [hevD1]
  split
  · split
    · rw [findEvent_postCommission]
      exact hD3
    · exact hD3
  · exact hD3

/-- Payment confirmation through the client fallback also books the sale
on the ticket type: `quantity_sold` is incremented by one
(`registrations.py` lines 1065-1068). -/
theorem fallback_increments_sold (db2 : DB) (rid : Nat) (reg : Registration) (ev2 : Event)
    (tid : Nat) (tk : Ticket) (sid : String) (pi : Option String) (fq : String)
    (hfind : findReg db2 rid = some reg) (hnc : reg.status ≠ RegStatus.confirmed)
    (hev : findEvent db2 reg.event_id = some ev2)
    (htid : reg.ticket_id = some tid) (htk : findTicket db2 tid = some tk) :
    findTicket (confirmPaymentFallback db2 true true (some rid) sid pi fq).1 tid
      = some { tk with quantity_sold := tk.quantity_sold + 1 } := by
  unfold confirmPaymentFallback
  rw [if_neg (by simp), if_neg (by simp)]
  dsimp only
  simp only [hfind]
  rw [if_neg hnc]
  have hevD1 : findEvent (updateReg db2 (confirmedRegOf reg sid pi fq)) reg.event_id
      = some ev2 := hev
  have htkD1 : findTicket (updateReg db2 (confirmedRegOf reg sid pi fq)) tid
      = some tk := htk
  have hD3 := findTicket_applyInventory_self
    (updateReg db2 (confirmedRegOf reg sid pi fq)) reg true tid tk htid htkD1
  simp only [hevD1]
  split
  · split
    · rw [findTicket_postCommission]
      exact hD3
    · exact hD3
  · exact hD3

/-- C2 claims that paid registration creation reserves inventory before
the payment session is requested.  Counterexample: on a concrete store
with two free seats and an unsold ticket, the account-holder paid route
returns a payment session for a freshly created `PENDING` registration
while the events and tickets tables — and with them `available_seats = 2`
and `quantity_sold = 0` — are exactly as before the call. -/
theorem c2_counterexample :
    (registerUserToPaidEvent dbC2 1 7 (some 5) 100 0 (some "sess2")).2
        = RegResult.paymentSession 100 "sess2"
    ∧ (registerUserToPaidEvent dbC2 1 7 (some 5) 100 0 (some "sess2")).1.events = dbC2.events
    ∧ (registerUserToPaidEvent dbC2 1 7 (some 5) 100 0 (some "sess2")).1.tickets = dbC2.tickets
    ∧ findEvent (registerUserToPaidEvent dbC2 1 7 (some 5) 100 0 (some "sess2")).1 1 = some evC2
    ∧ evC2.available_seats = 2 ∧ tkC2.quantity_sold = 0
    ∧ (∃ r, findReg (registerUserToPaidEvent dbC2 1 7 (some 5) 100 0 (some "sess2")).1 100
          = some r ∧ r.status = RegStatus.pending) := by
  refine ⟨rfl, rfl, rfl, rfl, rfl, rfl, ⟨_, rfl, rfl⟩⟩

/-- C2 amended: on a paid event with seats available and no duplicate,
both paid routes create the registration in `PENDING` but do NOT reserve
inventory: the events and tickets tables are unchanged when the payment
session is requested.  The reservation happens later, at payment
confirmation through the client fallback `confirm_payment`, which
decrements the owning event's `available_seats` (floored at zero) and
increments the ticket's `quantity_sold`.  (The gateway webhook only
reaches its decrement for a row already carrying a QR token; for the
fresh QR-less rows these routes create it fails before committing.) -/
theorem c2_amended_reservation_at_confirmation (db : DB) (eid uid newId now : Nat)
    (email sid : String) (reuseOk : Bool) (tid : Nat) (t : Ticket) (ev : Event)
    (hev : findPublishedEvent db eid = some ev) (hfree : ev.is_free = false)
    (hvt : validateTicket db eid tid = Except.ok t)
    (hseats : 0 < ev.available_seats)
    (hdupg : db.registrations.filter (fun r =>
      r.event_id == eid && r.guest_email == some email
        && (r.status == RegStatus.confirmed || r.status == RegStatus.pending)) = [])
    (hdupu : db.registrations.find? (fun r =>
      r.event_id == eid && r.user_id == some uid
        && r.status == RegStatus.confirmed) = none) :
    (registerGuestToPaidEvent db eid email (some tid) newId now reuseOk (some sid)
        = (updateReg
            (addReg db (pendingPaidRow newId eid t.id RegType.guest none (some email)
              t.price ev.currency now))
            { pendingPaidRow newId eid t.id RegType.guest none (some email)
                t.price ev.currency now with
              stripe_session_id := some sid },
           RegResult.paymentSession newId sid)
      ∧ (registerGuestToPaidEvent db eid email (some tid) newId now reuseOk (some sid)).1.events
          = db.events
      ∧ (registerGuestToPaidEvent db eid email (some tid) newId now reuseOk (some sid)).1.tickets
          = db.tickets)
    ∧ (registerUserToPaidEvent db eid uid (some tid) newId now (some sid)
        = (updateReg
            (addReg db (pendingPaidRow newId eid t.id RegType.user (some uid) none
              t.price ev.currency now))
            { pendingPaidRow newId eid t.id RegType.user (some uid) none
                t.price ev.currency now with
              stripe_session_id := some sid },
           RegResult.paymentSession newId sid)
      ∧ (registerUserToPaidEvent db eid uid (some tid) newId now (some sid)).1.events
          = db.events
      ∧ (registerUserToPaidEvent db eid uid (some tid) newId now (some sid)).1.tickets
          = db.tickets)
    ∧ (∀ db2 rid reg ev2 sid2 pi2 fq2, findReg db2 rid = some reg →
        reg.status ≠ RegStatus.confirmed → findEvent db2 reg.event_id = some ev2 →
        findEvent (confirmPaymentFallback db2 true true (some rid) sid2 pi2 fq2).1 reg.event_id
          = some { ev2 with available_seats := max 0 (ev2.available_seats - 1) })
    ∧ (∀ db2 rid reg ev2 tid2 tk sid2 pi2 fq2, findReg db2 rid = some reg →
        reg.status ≠ RegStatus.confirmed → findEvent db2 reg.event_id = some ev2 →
        reg.ticket_id = some tid2 → findTicket db2 tid2 = some tk →
        findTicket (confirmPaymentFallback db2 true true (some rid) sid2 pi2 fq2).1 tid2
          = some { tk with quantity_sold := tk.quantity_sold + 1 }) := by
  have hg : registerGuestToPaidEvent db eid email (some tid) newId now reuseOk (some sid)
      = (updateReg
          (addReg db (pendingPaidRow newId eid t.id RegType.guest none (some email)
            t.price ev.currency now))
          { pendingPaidRow newId eid t.id RegType.guest none (some email)
              t.price ev.currency now with
            stripe_session_id := some sid },
         RegResult.paymentSession newId sid) := by
    unfold registerGuestToPaidEvent
    simp only [hev]
    rw [if_neg (by simp [hfree])]
    try dsimp only
    simp only [hvt]
    rw [if_neg (not_le.mpr hseats)]
    simp only [hdupg, latestBy, List.foldl_nil]
  have hu : registerUserToPaidEvent db eid uid (some tid) newId now (some sid)
      = (updateReg
          (addReg db (pendingPaidRow newId eid t.id RegType.user (some uid) none
            t.price ev.currency now))
          { pendingPaidRow newId eid t.id RegType.user (some uid) none
              t.price ev.currency now with
            stripe_session_id := some sid },
         RegResult.paymentSession newId sid) := by
    unfold registerUserToPaidEvent
    simp only [hev]
    rw [if_neg (by simp [hfree])]
    try dsimp only
    simp only [hvt]
    rw [if_neg (not_le.mpr hseats)]
    simp only [hdupu]
  refine ⟨⟨hg, ?_, ?_⟩, ⟨hu, ?_, ?_⟩, ?_, ?_⟩
  · exact (congrArg (fun p => p.1.events) hg).trans rfl
  · exact (congrArg (fun p => p.1.tickets) hg).trans rfl
  · exact (congrArg (fun p => p.1.events) hu).trans rfl
  · exact (congrArg (fun p => p.1.tickets) hu).trans rfl
  · intro db2 rid reg ev2 sid2 pi2 fq2 hf hnc he
    exact fallback_decrements_seats db2 rid reg ev2 sid2 pi2 fq2 hf hnc he
  · intro db2 rid reg ev2 tid2 tk sid2 pi2 fq2 hf hnc he htid htk
    exact fallback_increments_sold db2 rid reg ev2 tid2 tk sid2 pi2 fq2 hf hnc he htid htk

/-- C2 witness: the amended statement on the concrete store — the
account-holder route leaves both seats, then the fallback confirmation
of the pending registration takes the seat (2 becomes 1) and books the
sale (0 becomes 1). -/
theorem c2_amended_witness :
    (registerUserToPaidEvent dbC2 1 7 (some 5) 100 0 (some "sess2")).1.events = dbC2.events
    ∧ findEvent (confirmPaymentFallback dbC2pending true true (some 100) "sess2"
          (some "pi2") "qr2").1 1
        = some { evC2 with available_seats := 1 }
    ∧ findTicket (confirmPaymentFallback dbC2pending true true (some 100) "sess2"
          (some "pi2") "qr2").1 5
        = some { tkC2 with quantity_sold := 1 } := by
  have h := c2_amended_reservation_at_confirmation dbC2 1 7 100 0 "e@x" "sess2" true 5 tkC2
    evC2 (by rfl) (by rfl) (by rfl) (by decide) (by rfl) (by rfl)
  refine ⟨h.2.1.2.1, ?_, ?_⟩
  · exact h.2.2.1 dbC2pending 100
      (pendingPaidRow 100 1 5 RegType.user (some 7) none 50 "CAD" 0) evC2
      "sess2" (some "pi2") "qr2" (by rfl) (by decide) (by rfl)
  · exact h.2.2.2 dbC2pending 100
      (pendingPaidRow 100 1 5 RegType.user (some 7) none 50 "CAD" 0) evC2 5 tkC2
      "sess2" (some "pi2") "qr2" (by rfl) (by decide) (by rfl) (by rfl) (by rfl)

/-! ### Claim C7 -/

theorem confirmedRegOf_amount (reg : Registration) (sid : String) (pi : Option String)
    (fq : String) : (confirmedRegOf reg sid pi fq).amount_paid = reg.amount_paid := by
  unfold confirmedRegOf
  dsimp only
  split <;> rfl

theorem confirmedRegOf_currency (reg : Registration) (sid : String) (pi : Option String)
    (fq : String) : (confirmedRegOf reg sid pi fq).currency = reg.currency := by
  unfold confirmedRegOf
  dsimp only
  split <;> rfl

/-- With a non-negative amount and rate, the conditional minimum of the
source (`if minimum > 0 then max ... else ...`) coincides with a plain
`max` against the minimum. -/
theorem commissionAmountOf_eq_max (cs : CommissionSettings) (amount rate : ℚ)
    (h0 : 0 ≤ amount) (h1 : 0 ≤ rate) :
    commissionAmountOf cs amount rate
      = max (amount * rate / 100) cs.minimum_commission_amount := by
  unfold commissionAmountOf
  dsimp only
  split
  · rfl
  · next h =>
    have hq : (0:ℚ) ≤ amount * rate / 100 := by positivity
    have hmin : cs.minimum_commission_amount ≤ amount * rate / 100 :=
      le_trans (not_lt.mp h) hq
    exact (max_eq_left hmin).symm

theorem resolveCommissionRate_congr (db1 db2 : DB) (ev : Event) (cs : CommissionSettings)
    (h : db1.categories = db2.categories) :
    resolveCommissionRate db1 ev cs = resolveCommissionRate db2 ev cs := by
  unfold resolveCommissionRate findCategory
  rw [h]

/-- When no commission row exists yet for the registration, posting
appends exactly one row with the resolved rate and derived amounts. -/
theorem postCommission_appends (db : DB) (cs : CommissionSettings) (reg : Registration)
    (ev : Event)
    (hnoc : db.commissions.find? (fun c => c.registration_id == reg.id) = none) :
    postCommission db cs reg ev
      = { db with commissions := db.commissions ++
          [{ registration_id := reg.id, event_id := ev.id, organizer_id := ev.organizer_id,
             ticket_amount := reg.amount_paid,
             commission_rate := resolveCommissionRate db ev cs,
             commission_amount :=
               commissionAmountOf cs reg.amount_paid (resolveCommissionRate db ev cs),
             net_amount := reg.amount_paid -
               commissionAmountOf cs reg.amount_paid (resolveCommissionRate db ev cs),
             currency := reg.currency,
             stripe_payment_intent_id := reg.stripe_payment_intent_id }] } := by
  unfold postCommission
  dsimp only
  simp only [hnoc]

/-- C7: for a paid, not-yet-confirmed registration with positive amount
and active commission settings, the confirmation paths that post a
`CommissionTransaction` — the client fallback always, the gateway
webhook when the row already carries a QR token (without one it fails
before posting anything) — post one row whose rate is the category's
custom rate if one resolves and the platform default otherwise, whose
amount is `max(amount_paid * rate / 100, minimum_commission_amount)`,
and whose net amount is `amount_paid` minus that. -/
theorem c7_commission_formula (db : DB) (rid : Nat) (reg : Registration) (ev : Event)
    (cs : CommissionSettings) (sid : String) (pi : Option String) (fq : String)
    (hfind : findReg db rid = some reg) (hnc : reg.status ≠ RegStatus.confirmed)
    (hset : db.commissionSettings = some cs) (hact : cs.is_active = true)
    (hamt : 0 < reg.amount_paid)
    (hev : findEvent db reg.event_id = some ev)
    (hnoc : db.commissions.find? (fun c => c.registration_id == reg.id) = none)
    (hrate : 0 ≤ resolveCommissionRate db ev cs) :
    (reg.qr_code_data ≠ none →
      (stripeWebhookCompleted db (some rid) sid pi fq).1.commissions
        = db.commissions ++
          [{ registration_id := reg.id, event_id := ev.id, organizer_id := ev.organizer_id,
             ticket_amount := reg.amount_paid,
             commission_rate := resolveCommissionRate db ev cs,
             commission_amount :=
               max (reg.amount_paid * resolveCommissionRate db ev cs / 100)
                 cs.minimum_commission_amount,
             net_amount := reg.amount_paid -
               max (reg.amount_paid * resolveCommissionRate db ev cs / 100)
                 cs.minimum_commission_amount,
             currency := reg.currency,
             stripe_payment_intent_id :=
               (confirmedRegOf reg sid pi fq).stripe_payment_intent_id }])
    ∧ ((confirmPaymentFallback db true true (some rid) sid pi fq).1.commissions
        = db.commissions ++
          [{ registration_id := reg.id, event_id := ev.id, organizer_id := ev.organizer_id,
             ticket_amount := reg.amount_paid,
             commission_rate := resolveCommissionRate db ev cs,
             commission_amount :=
               max (reg.amount_paid * resolveCommissionRate db ev cs / 100)
                 cs.minimum_commission_amount,
             net_amount := reg.amount_paid -
               max (reg.amount_paid * resolveCommissionRate db ev cs / 100)
                 cs.minimum_commission_amount,
             currency := reg.currency,
             stripe_payment_intent_id :=
               (confirmedRegOf reg sid pi fq).stripe_payment_intent_id }])
    ∧ (∀ cid cat rc, ev.category_id = some cid → findCategory db cid = some cat →
         cat.custom_commission_rate = some rc → resolveCommissionRate db ev cs = rc)
    ∧ (ev.category_id = none → resolveCommissionRate db ev cs = cs.default_commission_rate)
    ∧ (∀ cid cat, ev.category_id = some cid → findCategory db cid = some cat →
         cat.custom_commission_rate = none →
         resolveCommissionRate db ev cs = cs.default_commission_rate) := by
  have hnoc2 : (updateReg db (confirmedRegOf reg sid pi fq)).commissions.find?
      (fun c => c.registration_id == (confirmedRegOf reg sid pi fq).id) = none := by
    simp only [confirmedRegOf_id]
    exact hnoc
  have hcond : (cs.is_active && decide (0 < reg.amount_paid)) = true := by
    rw [hact]
    simp [hamt]
  have hcat : resolveCommissionRate
      (applyInventoryOnConfirm (updateReg db (confirmedRegOf reg sid pi fq)) reg false) ev cs
      = resolveCommissionRate db ev cs :=
    resolveCommissionRate_congr _ db ev cs ((categories_applyInventory _ _ _).trans rfl)
  have hcatT : resolveCommissionRate
      (applyInventoryOnConfirm (updateReg db (confirmedRegOf reg sid pi fq)) reg true) ev cs
      = resolveCommissionRate db ev cs :=
    resolveCommissionRate_congr _ db ev cs ((categories_applyInventory _ _ _).trans rfl)
  have hmax := commissionAmountOf_eq_max cs reg.amount_paid
    (resolveCommissionRate db ev cs) (le_of_lt hamt) hrate
  refine ⟨?_, ?_, ?_, ?_, ?_⟩
  · intro hqr
    unfold stripeWebhookCompleted
    dsimp only
    simp only [hfind]
    rw [if_neg hnc, if_neg hqr]
    have hset3 : (applyInventoryOnConfirm
        (updateReg db (confirmedRegOf reg sid pi fq)) reg false).commissionSettings
        = some cs := by
      rw [commissionSettings_applyInventory]
      exact hset
    simp only [hset3]
    rw [if_pos hcond]
    simp only [show findEvent (updateReg db (confirmedRegOf reg sid pi fq)) reg.event_id
      = some ev from hev]
    rw [postCommission_appends _ cs (confirmedRegOf reg sid pi fq) ev
      (by rw [commissions_applyInventory]; exact hnoc2)]
    simp only [commissions_applyInventory]
    simp only [hcat, confirmedRegOf_id, confirmedRegOf_amount, confirmedRegOf_currency, hmax]
    rfl
  · unfold confirmPaymentFallback
    rw [if_neg (by simp), if_neg (by simp)]
    dsimp only
    simp only [hfind]
    rw [if_neg hnc]
    have hset3 : (applyInventoryOnConfirm
        (updateReg db (confirmedRegOf reg sid pi fq)) reg true).commissionSettings
        = some cs := by
      rw [commissionSettings_applyInventory]
      exact hset
    simp only [hset3]
    rw [if_pos hcond]
    simp only [show findEvent (updateReg db (confirmedRegOf reg sid pi fq)) reg.event_id
      = some ev from hev]
    rw [postCommission_appends _ cs (confirmedRegOf reg sid pi fq) ev
      (by rw [commissions_applyInventory]; exact hnoc2)]
    simp only [commissions_applyInventory]
    simp only [hcatT, confirmedRegOf_id, confirmedRegOf_amount, confirmedRegOf_currency, hmax]
    rfl
  · intro cid cat rc hcid hfc hrc
    unfold resolveCommissionRate
    simp only [hcid, hfc, hrc]
  · intro hcid
    unfold resolveCommissionRate
    simp only [hcid]
  · intro cid cat hcid hfc hrc
    unfold resolveCommissionRate
    simp only [hcid, hfc, hrc]

/-- C7 witness: on the concrete store (whose pending registration
already carries a QR token, so the webhook path posts) the category's
custom 8 % beats the 5 % default, and the 10-unit minimum beats
`40 × 8 % = 3.2`; the fallback posts the identical row. -/
theorem c7_witness :
    (stripeWebhookCompleted dbC7 (some 2) "s7" (some "p7") "q7").1.commissions
      = dbC7.commissions ++
        [{ registration_id := regC7.id, event_id := evC7.id,
           organizer_id := evC7.organizer_id,
           ticket_amount := regC7.amount_paid,
           commission_rate := resolveCommissionRate dbC7 evC7 csC7,
           commission_amount :=
             max (regC7.amount_paid * resolveCommissionRate dbC7 evC7 csC7 / 100)
               csC7.minimum_commission_amount,
           net_amount := regC7.amount_paid -
             max (regC7.amount_paid * resolveCommissionRate dbC7 evC7 csC7 / 100)
               csC7.minimum_commission_amount,
           currency := regC7.currency,
           stripe_payment_intent_id :=
             (confirmedRegOf regC7 "s7" (some "p7") "q7").stripe_payment_intent_id }]
    ∧ resolveCommissionRate dbC7 evC7 csC7 = 8 := by
  refine ⟨?_, rfl⟩
  exact (c7_commission_formula dbC7 2 regC7 evC7 csC7 "s7" (some "p7") "q7"
    (by rfl) (by decide) (by rfl) (by rfl) (by decide) (by rfl) (by rfl)
    (by decide)).1 (by decide)

/-! ### Claim C5 -/

theorem joinedBefore_irrefl (a : Option Nat) : joinedBefore a a = false := by
  cases a <;> simp [joinedBefore]

theorem joinedBefore_trans {a b c : Option Nat} (h1 : joinedBefore a b = true)
    (h2 : joinedBefore b c = true) : joinedBefore a c = true := by
  cases a <;> cases b <;> cases c <;> simp_all [joinedBefore]
  omega

theorem joinedBefore_neg_trans {a b c : Option Nat} (h1 : joinedBefore a b = false)
    (h2 : joinedBefore b c = false) : joinedBefore a c = false := by
  cases a <;> cases b <;> cases c <;> simp_all [joinedBefore]
  omega

/-- What the `LIMIT 1` fold returns: an element of the accumulator or
the list, no strict predecessor of which (by `waitlist_joined_at`)
occurs in the list or the accumulator. -/
theorem foldl_pickOlder_spec (l : List Registration) (acc : Option Registration)
    (c : Registration) (h : l.foldl pickOlder acc = some c) :
    (acc = some c ∨ c ∈ l)
    ∧ (∀ r ∈ l, joinedBefore r.waitlist_joined_at c.waitlist_joined_at = false)
    ∧ (∀ a, acc = some a → joinedBefore a.waitlist_joined_at c.waitlist_joined_at = false) := by
  induction l generalizing acc with
  | nil =>
    rw [List.foldl_nil] at h
    refine ⟨Or.inl h, ?_, ?_⟩
    · intro r hr
      cases hr
    · intro a ha
      rw [ha] at h
      cases h
      exact joinedBefore_irrefl _
  | cons x xs ih =>
    rw [List.foldl_cons] at h
    obtain ⟨hmem, hmin, hacc⟩ := ih (pickOlder acc x) h
    have hx : joinedBefore x.waitlist_joined_at c.waitlist_joined_at = false := by
      cases acc with
      | none => exact hacc x rfl
      | some b =>
        by_cases hb : joinedBefore x.waitlist_joined_at b.waitlist_joined_at = true
        · exact hacc x (by simp [pickOlder, hb])
        · have hbf : joinedBefore x.waitlist_joined_at b.waitlist_joined_at = false := by
            cases hq : joinedBefore x.waitlist_joined_at b.waitlist_joined_at
            · rfl
            · exact absurd hq hb
          exact joinedBefore_neg_trans hbf (hacc b (by simp [pickOlder, hbf]))
    refine ⟨?_, ?_, ?_⟩
    · cases hmem with
      | inr hc => exact Or.inr (List.mem_cons_of_mem x hc)
      | inl hc =>
        cases acc with
        | none =>
          have : x = c := by simpa [pickOlder] using hc
          exact Or.inr (this ▸ List.mem_cons_self x xs)
        | some b =>
          by_cases hb : joinedBefore x.waitlist_joined_at b.waitlist_joined_at = true
          · have : x = c := by simpa [pickOlder, hb] using hc
            exact Or.inr (this ▸ List.mem_cons_self x xs)
          · have hbf : joinedBefore x.waitlist_joined_at b.waitlist_joined_at = false := by
              cases hq : joinedBefore x.waitlist_joined_at b.waitlist_joined_at
              · rfl
              · exact absurd hq hb
            have : b = c := by simpa [pickOlder, hbf] using hc
            exact Or.inl (by rw [this])
    · intro r hr
      cases hr with
      | head => exact hx
      | tail _ hr => exact hmin r hr
    · intro a ha
      subst ha
      by_cases hb : joinedBefore x.waitlist_joined_at a.waitlist_joined_at = true
      · have hxc := hacc x (by simp [pickOlder, hb])
        cases hq : joinedBefore a.waitlist_joined_at c.waitlist_joined_at
        · rfl
        · exact absurd (joinedBefore_trans hb hq) (by rw [hxc]; simp)
      · have hbf : joinedBefore x.waitlist_joined_at a.waitlist_joined_at = false := by
          cases hq : joinedBefore x.waitlist_joined_at a.waitlist_joined_at
          · rfl
          · exact absurd hq hb
        exact hacc a (by simp [pickOlder, hbf])

/-- The selected waitlist candidate is a waitlisted registration of the
event with no strictly older (`waitlist_joined_at`) waitlisted
competitor. -/
theorem selectOldestWaitlist_spec (db : DB) (eid : Nat) (c : Registration)
    (h : selectOldestWaitlist db eid = some c) :
    (c ∈ db.registrations ∧ c.event_id = eid ∧ c.status = RegStatus.waitlist)
    ∧ ∀ r ∈ db.registrations, r.event_id = eid → r.status = RegStatus.waitlist →
        joinedBefore r.waitlist_joined_at c.waitlist_joined_at = false := by
  unfold selectOldestWaitlist at h
  obtain ⟨hmem, hmin, -⟩ := foldl_pickOlder_spec _ none c h
  cases hmem with
  | inl h' => cases h'
  | inr h' =>
    have hc := List.mem_filter.mp h'
    have hprops : c.event_id = eid ∧ c.status = RegStatus.waitlist := by
      have := hc.2
      simp only [Bool.and_eq_true, beq_iff_eq] at this
      exact this
    refine ⟨⟨hc.1, hprops.1, hprops.2⟩, ?_⟩
    intro r hr hre hrs
    exact hmin r (List.mem_filter.mpr ⟨hr, by simp [hre, hrs]⟩)

/-- C5 claims the allocator promotes the FIFO-oldest `WAITLIST`
registration whenever a seat is free.  What the code actually does: it
is a no-op when the event is missing, `available_seats ≤ 0`, or no
`WAITLIST` row exists; on a FREE event it never promotes anyone — the
free branch raises `UnboundLocalError` at `waitlist_service.py` line 134
before its commit at line 146, so the call leaves the store unchanged
(the code bug the claim runs into); on a PAID event it does select the
FIFO-oldest candidate — the waitlisted registration of the event with
minimal `waitlist_joined_at` — and moves exactly that row to `OFFERED`
with a one-hour payment deadline. -/
theorem c5_allocator_fifo_paid_only (db : DB) (eid : Nat) (now : Nat) (fq : String)
    (sess : Option String) :
    (∀ ev, findEvent db eid = some ev → ev.available_seats ≤ 0 →
       allocateWaitlistIfPossible db eid now fq sess = db)
    ∧ (selectOldestWaitlist db eid = none →
       allocateWaitlistIfPossible db eid now fq sess = db)
    ∧ (∀ ev, findEvent db eid = some ev → ev.is_free = true →
       allocateWaitlistIfPossible db eid now fq sess = db)
    ∧ (∀ ev c, findEvent db eid = some ev → 0 < ev.available_seats →
       ev.is_free = false →
       selectOldestWaitlist db eid = some c →
       (c ∈ db.registrations ∧ c.event_id = eid ∧ c.status = RegStatus.waitlist
        ∧ ∀ r ∈ db.registrations, r.event_id = eid → r.status = RegStatus.waitlist →
            joinedBefore r.waitlist_joined_at c.waitlist_joined_at = false)
       ∧ ∃ c2, c2.id = c.id
           ∧ c2.status = RegStatus.offered
           ∧ c2.offer_expires_at = some (now + 3600)
           ∧ (allocateWaitlistIfPossible db eid now fq sess).registrations
               = db.registrations.map (fun r => if r.id == c.id then c2 else r)) := by
  refine ⟨?_, ?_, ?_, ?_⟩
  · intro ev hev hfull
    unfold allocateWaitlistIfPossible
    simp only [hev]
    rw [if_pos hfull]
  · intro hsel
    unfold allocateWaitlistIfPossible
    cases hevo : findEvent db eid with
    | none => rfl
    | some ev =>
      dsimp only
      by_cases hs : ev.available_seats ≤ 0
      · rw [if_pos hs]
      · rw [if_neg hs]
        simp only [hsel]
  · intro ev hev hf
    unfold allocateWaitlistIfPossible
    simp only [hev]
    by_cases hs : ev.available_seats ≤ 0
    · rw [if_pos hs]
    · rw [if_neg hs]
      cases hsel : selectOldestWaitlist db eid with
      | none => rfl
      | some cand =>
        dsimp only
        rw [if_pos hf]
  · intro ev c hev hseats hf hsel
    refine ⟨?_, ?_⟩
    · obtain ⟨⟨hm, he, hs⟩, hmin⟩ := selectOldestWaitlist_spec db eid c hsel
      exact ⟨hm, he, hs, hmin⟩
    · unfold allocateWaitlistIfPossible
      simp only [hev]
      rw [if_neg (not_le.mpr hseats)]
      simp only [hsel]
      simp only [if_neg (show ¬ ev.is_free = true by simp [hf])]
      cases sess with
      | none =>
        refine ⟨{ c with
                  status := RegStatus.offered, offer_expires_at := some (now + 3600) },
                rfl, ?_, ?_, ?_⟩
        · rfl
        · rfl
        · rfl
      | some sid =>
        refine ⟨{ c with
                  status := RegStatus.offered, offer_expires_at := some (now + 3600),
                  stripe_session_id := some sid },
                rfl, ?_, ?_, ?_⟩
        · rfl
        · rfl
        · show (updateReg (updateEvent (updateReg db _) _) _).registrations = _
          simp only [updateReg, updateEvent]
          rw [List.map_map]
          refine congrArg (fun fn => List.map fn db.registrations) (funext (fun r => ?_))
          by_cases hr : (r.id == c.id) = true
          · simp [Function.comp, hr]
          · have hr' : (r.id == c.id) = false := by
              cases hq : r.id == c.id
              · rfl
              · exact absurd hq hr
            simp [Function.comp, hr']

/-- C5 witness: on the paid store, three waitlisted guests joined at
10 < 20 < 30 and one freed seat — the guest who joined at 10
(registration 11) is the one moved to `OFFERED`; on the free store with
a freed seat and a waitlisted guest, the allocator call returns the
store unchanged — nobody is promoted. -/
theorem c5_witness :
    selectOldestWaitlist dbC5 1 = some regW1
    ∧ (∃ c2, c2.id = 11 ∧ c2.status = RegStatus.offered
        ∧ (allocateWaitlistIfPossible dbC5 1 1000 "q5" none).registrations
            = dbC5.registrations.map (fun r => if r.id == 11 then c2 else r))
    ∧ allocateWaitlistIfPossible dbC5f 1 1000 "q5" none = dbC5f := by
  refine ⟨by rfl, ?_, ?_⟩
  · obtain ⟨-, c2, hid, hst, -, hmap⟩ :=
      (c5_allocator_fifo_paid_only dbC5 1 1000 "q5" none).2.2.2 evC5 regW1
        (by rfl) (by decide) (by rfl) (by rfl)
    exact ⟨c2, hid.trans rfl, hst, hmap⟩
  · exact (c5_allocator_fifo_paid_only dbC5f 1 1000 "q5" none).2.2.1 evC5f
      (by rfl) (by rfl)

/-! ### Claim C6 -/

theorem regIds_updateReg (db : DB) (r : Registration) :
    (updateReg db r).registrations.map (fun x => x.id)
      = db.registrations.map (fun x => x.id) :=
  map_key_replace (fun x : Registration => x.id) r db.registrations

theorem eventIds_updateEvent (db : DB) (e : Event) :
    (updateEvent db e).events.map (fun x => x.id) = db.events.map (fun x => x.id) :=
  map_key_replace (fun x : Event => x.id) e db.events

theorem regIds_expireOne (db : DB) (reg : Registration) :
    (expireOne db reg).registrations.map (fun x => x.id)
      = db.registrations.map (fun x => x.id) := by
  unfold expireOne
  dsimp only
  split
  · rfl
  · exact regIds_updateReg db _

theorem eventIds_expireOne (db : DB) (reg : Registration) :
    (expireOne db reg).events.map (fun x => x.id) = db.events.map (fun x => x.id) := by
  unfold expireOne
  dsimp only
  split
  · rfl
  · exact (eventIds_updateEvent _ _).trans rfl

theorem regIds_processExpired (todo : List Registration) (db : DB) :
    ((todo.foldl expireOne db).registrations.map (fun x => x.id))
      = db.registrations.map (fun x => x.id) := by
  induction todo generalizing db with
  | nil => rfl
  | cons x xs ih => rw [List.foldl_cons, ih, regIds_expireOne]

theorem findReg_isSome_iff (db : DB) (rid : Nat) :
    (findReg db rid).isSome = true ↔ rid ∈ db.registrations.map (fun x => x.id) := by
  unfold findReg
  rw [List.find?_isSome]
  constructor
  · rintro ⟨x, hx, hpx⟩
    exact List.mem_map.mpr ⟨x, hx, by simpa [beq_iff_eq] using hpx⟩
  · intro hx
    obtain ⟨x, hxl, hxid⟩ := List.mem_map.mp hx
    exact ⟨x, hxl, by simp [hxid]⟩

theorem findEvent_isSome_iff (db : DB) (eid : Nat) :
    (findEvent db eid).isSome = true ↔ eid ∈ db.events.map (fun x => x.id) := by
  unfold findEvent
  rw [List.find?_isSome]
  constructor
  · rintro ⟨x, hx, hpx⟩
    exact List.mem_map.mpr ⟨x, hx, by simpa [beq_iff_eq] using hpx⟩
  · intro hx
    obtain ⟨x, hxl, hxid⟩ := List.mem_map.mp hx
    exact ⟨x, hxl, by simp [hxid]⟩

theorem findReg_expireOne_ne (db : DB) (x : Registration) (rid : Nat) (h : x.id ≠ rid) :
    findReg (expireOne db x) rid = findReg db rid := by
  unfold expireOne
  dsimp only
  split
  · rfl
  · rw [findReg_updateEvent]
    exact findReg_updateReg_of_ne db _ rid h

theorem findReg_processExpired_ne (todo : List Registration) (db : DB) (rid : Nat)
    (h : ∀ x ∈ todo, x.id ≠ rid) :
    findReg (todo.foldl expireOne db) rid = findReg db rid := by
  induction todo generalizing db with
  | nil => rfl
  | cons x xs ih =>
    rw [List.foldl_cons, ih _ (fun y hy => h y (List.mem_cons_of_mem x hy))]
    exact findReg_expireOne_ne db x rid (h x (List.mem_cons_self x xs))

/-- The sweep loop rewrites every processed registration (with distinct
ids, an existing row and an existing owning event) to its waitlisted
form: status back to `WAITLIST`, deadline and stored session cleared. -/
theorem findReg_processExpired_mem (todo : List Registration) (r : Registration) :
    ∀ (db : DB),
      (todo.map (fun x => x.id)).Nodup →
      r ∈ todo →
      (findReg db r.id).isSome = true →
      (findEvent db r.event_id).isSome = true →
      findReg (todo.foldl expireOne db) r.id
        = some { r with
            status := RegStatus.waitlist
            offer_expires_at := none
            stripe_session_id := none } := by
  induction todo with
  | nil =>
    intro db _ hmem _ _
    cases hmem
  | cons x xs ih =>
    intro db hnd hmem hsome hev
    rw [List.foldl_cons]
    rw [List.map_cons] at hnd
    have hnd2 := List.nodup_cons.mp hnd
    rcases List.mem_cons.mp hmem with hx | hx
    · subst hx
      have hstep : findReg (expireOne db r) r.id
          = some { r with
              status := RegStatus.waitlist
              offer_expires_at := none
              stripe_session_id := none } := by
        unfold expireOne
        dsimp only
        cases hevo : findEvent db r.event_id with
        | none =>
          rw [hevo] at hev
          simp at hev
        | some e2 =>
          dsimp only
          rw [findReg_updateEvent]
          exact findReg_updateReg_self db _ hsome
      have hrest : ∀ y ∈ xs, y.id ≠ r.id := by
        intro y hy hcontra
        exact hnd2.1 (List.mem_map.mpr ⟨y, hy, hcontra⟩)
      rw [findReg_processExpired_ne xs _ r.id hrest, hstep]
    · refine ih (expireOne db x) hnd2.2 hx ?_ ?_
      · rw [findReg_isSome_iff, regIds_expireOne, ← findReg_isSome_iff]
        exact hsome
      · rw [findEvent_isSome_iff, eventIds_expireOne, ← findEvent_isSome_iff]
        exact hev

/-- The sweep loop adds one seat per processed registration of the
event: the event row ends with `available_seats` increased by the number
of expired offers it owned. -/
theorem findEvent_processExpired (todo : List Registration) (eid : Nat) (ev : Event) :
    ∀ (db : DB) (s : Int),
      findEvent db eid = some { ev with available_seats := s } →
      findEvent (todo.foldl expireOne db) eid
        = some { ev with available_seats :=
            s + ((todo.filter (fun x => x.event_id == eid)).length : Int) } := by
  induction todo with
  | nil =>
    intro db s hev
    rw [List.foldl_nil, List.filter_nil]
    rw [hev]
    rw [show s + ((List.length ([] : List Registration) : Int)) = s by simp]
  | cons x xs ih =>
    intro db s hev
    rw [List.foldl_cons]
    have hid : ({ ev with available_seats := s } : Event).id = eid :=
      findEvent_id db eid _ hev
    by_cases hx : (x.event_id == eid) = true
    · have hxe : x.event_id = eid := by simpa [beq_iff_eq] using hx
      have hstep : findEvent (expireOne db x) eid
          = some { ev with available_seats := s + 1 } := by
        unfold expireOne
        dsimp only
        rw [hxe, hev]
        dsimp only
        have hsome : (findEvent db ({ ev with available_seats := s } : Event).id).isSome
            = true := by
          rw [hid, hev]
          rfl
        rw [← hid]
        exact findEvent_updateEvent_self _ _ hsome
      have hfc : (x :: xs).filter (fun y => y.event_id == eid)
          = x :: xs.filter (fun y => y.event_id == eid) := by
        simp [List.filter_cons, hx]
      rw [ih _ _ hstep, hfc, List.length_cons]
      have harith : s + 1 + ((xs.filter (fun y => y.event_id == eid)).length : Int)
          = s + (((xs.filter (fun y => y.event_id == eid)).length + 1 : Nat) : Int) := by
        push_cast
        ring
      rw [harith]
    · have hx' : (x.event_id == eid) = false := by
        cases hq : x.event_id == eid
        · rfl
        · exact absurd hq hx
      have hxe : x.event_id ≠ eid := by simpa [beq_iff_eq] using hx'
      have hstep : findEvent (expireOne db x) eid
          = some { ev with available_seats := s } := by
        unfold expireOne
        dsimp only
        cases hevo : findEvent db x.event_id with
        | none => exact hev
        | some e2 =>
          dsimp only
          have he2 : e2.id = x.event_id := findEvent_id db x.event_id e2 hevo
          rw [findEvent_updateEvent_of_ne _ _ _ (by rw [he2]; exact hxe)]
          exact hev
      have hfc : (x :: xs).filter (fun y => y.event_id == eid)
          = xs.filter (fun y => y.event_id == eid) := by
        simp [List.filter_cons, hx']
      rw [ih _ _ hstep, hfc]

theorem replace_of_none {α : Type} (key : α → Nat) (v : α) (l : List α)
    (h : l.find? (fun y => key y == key v) = none) :
    l.map (fun x => if key x == key v then v else x) = l := by
  induction l with
  | nil => rfl
  | cons a as ih =>
    rw [List.find?_cons] at h
    rw [List.map_cons]
    cases hak : key a == key v
    · rw [hak] at h
      rw [if_neg (by simp [hak]), ih h]
    · rw [hak] at h
      simp at h

theorem findReg_updateReg_none (db : DB) (v : Registration) (rid : Nat)
    (h : findReg db v.id = none) :
    findReg (updateReg db v) rid = findReg db rid := by
  unfold findReg updateReg
  dsimp only
  rw [replace_of_none (fun x : Registration => x.id) v db.registrations h]

theorem isExpiredOffer_confirmed (now : Nat) (y : Registration)
    (h : y.status = RegStatus.confirmed) : isExpiredOffer now y = false := by
  unfold isExpiredOffer
  rw [h]
  rw [show (RegStatus.confirmed == RegStatus.offered) = false from by decide]
  rw [Bool.false_and]

theorem isExpiredOffer_future (now : Nat) (y : Registration)
    (h : y.offer_expires_at = some (now + 3600)) : isExpiredOffer now y = false := by
  unfold isExpiredOffer
  rw [h]
  dsimp only
  have hlt : ¬ (now + 3600 < now) := by omega
  rw [decide_eq_false hlt, Bool.and_false]

/-- Replacing one row cannot make the row found under any key an expired
offer, provided the old row under that key was not one and the new row is
not one. -/
theorem findReg_updateReg_preserves (db : DB) (v : Registration) (rid : Nat)
    (P : Registration → Prop)
    (hdb : ∀ y, findReg db rid = some y → P y) (hv : P v) :
    ∀ y, findReg (updateReg db v) rid = some y → P y := by
  intro y hy
  cases hbase : findReg db v.id with
  | none =>
    rw [findReg_updateReg_none db v rid hbase] at hy
    exact hdb y hy
  | some w =>
    by_cases hr : v.id = rid
    · subst hr
      rw [findReg_updateReg_self db v (by rw [hbase]; rfl)] at hy
      have hvy := Option.some.inj hy
      subst hvy
      exact hv
    · rw [findReg_updateReg_of_ne db v rid hr] at hy
      exact hdb y hy

/-- The waitlist allocator never leaves the row found under a given id
as an expired offer (at the allocation instant): it only writes rows
that are `CONFIRMED` or `OFFERED` with a deadline one hour in the
future. -/
theorem findReg_allocate_preserves (db : DB) (eid now : Nat) (fq : String)
    (sess : Option String) (rid : Nat)
    (h : ∀ y, findReg db rid = some y → isExpiredOffer now y = false) :
    ∀ y, findReg (allocateWaitlistIfPossible db eid now fq sess) rid = some y →
      isExpiredOffer now y = false := by
  intro y hy
  unfold allocateWaitlistIfPossible at hy
  dsimp only at hy
  repeat' split at hy
  all_goals first
    | exact h y hy
    | exact findReg_updateReg_preserves db _ rid _ h
        (isExpiredOffer_confirmed now _ rfl) y hy
    | exact findReg_updateReg_preserves db _ rid _ h
        (isExpiredOffer_future now _ rfl) y hy
    | exact findReg_updateReg_preserves _ _ rid _
        (findReg_updateReg_preserves db _ rid _ h (isExpiredOffer_future now _ rfl))
        (isExpiredOffer_future now _ rfl) y hy

theorem findReg_reallocFold_preserves (l : List Nat) (db : DB) (now : Nat)
    (fq : Nat → String) (sess : Nat → Option String) (rid : Nat)
    (h : ∀ y, findReg db rid = some y → isExpiredOffer now y = false) :
    ∀ y, findReg
        (l.foldl (fun d eid => allocateWaitlistIfPossible d eid now (fq eid) (sess eid)) db)
        rid = some y →
      isExpiredOffer now y = false := by
  induction l generalizing db with
  | nil => exact h
  | cons e es ih =>
    exact ih _ (findReg_allocate_preserves db e now (fq e) (sess e) rid h)

theorem regIds_allocate (db : DB) (eid now : Nat) (fq : String) (sess : Option String) :
    (allocateWaitlistIfPossible db eid now fq sess).registrations.map (fun x => x.id)
      = db.registrations.map (fun x => x.id) := by
  unfold allocateWaitlistIfPossible
  dsimp only
  repeat' split
  all_goals first
    | rfl
    | exact regIds_updateReg db _
    | exact (regIds_updateReg _ _).trans (regIds_updateReg db _)

theorem regIds_reallocFold (l : List Nat) (db : DB) (now : Nat) (fq : Nat → String)
    (sess : Nat → Option String) :
    ((l.foldl (fun d eid => allocateWaitlistIfPossible d eid now (fq eid) (sess eid))
        db).registrations.map (fun x => x.id))
      = db.registrations.map (fun x => x.id) := by
  induction l generalizing db with
  | nil => rfl
  | cons e es ih => rw [List.foldl_cons, ih, regIds_allocate]

/-- C6: for every OFFERED registration whose offer_expires_at has passed
(with an existing owning event and distinct row ids), one sweep pass
moves it back to WAITLIST with offer_expires_at and the stored payment
session cleared, and increments the owning event's available_seats by
one per expired offer of that event (hence at least one, and exactly one
when it is the event's only expired offer); and after a full sweep pass
including reallocation, the registration is no longer in the expired-offer
snapshot, so an immediately following second sweep pass restores nothing
further for it. -/
theorem c6_offer_expiry_roundtrip (db : DB) (now : Nat) (r : Registration) (ev : Event)
    (hnd : (db.registrations.map (fun x => x.id)).Nodup)
    (hmem : r ∈ db.registrations)
    (hexp : isExpiredOffer now r = true)
    (hev : findEvent db r.event_id = some ev) :
    findReg (expireOffersStep db now) r.id
      = some { r with
          status := RegStatus.waitlist
          offer_expires_at := none
          stripe_session_id := none }
    ∧ findEvent (expireOffersStep db now) r.event_id
      = some { ev with available_seats := ev.available_seats
          + (((expiredOffers db now).filter (fun x => x.event_id == r.event_id)).length : Int) }
    ∧ 1 ≤ ((expiredOffers db now).filter (fun x => x.event_id == r.event_id)).length
    ∧ ∀ fq sess x, x ∈ expiredOffers (expireOffersAndReallocate db now fq sess) now →
        x.id ≠ r.id := by
  have hmemE : r ∈ expiredOffers db now := by
    unfold expiredOffers
    rw [(List.perm_insertionSort (fun a b => expiresLe a b = true) _).mem_iff]
    exact List.mem_filter.mpr ⟨hmem, hexp⟩
  have hndE : ((expiredOffers db now).map (fun x => x.id)).Nodup := by
    have hsub : ((db.registrations.filter (isExpiredOffer now)).map
        (fun x => x.id)).Nodup :=
      hnd.sublist ((List.filter_sublist _).map _)
    exact (((List.perm_insertionSort (fun a b => expiresLe a b = true) _).map
      (fun x => x.id)).nodup_iff).mpr hsub
  have hsome : (findReg db r.id).isSome = true :=
    (findReg_isSome_iff db r.id).mpr (List.mem_map.mpr ⟨r, hmem, rfl⟩)
  have hevs : (findEvent db r.event_id).isSome = true := by
    rw [hev]
    rfl
  have h1 := findReg_processExpired_mem (expiredOffers db now) r db hndE hmemE hsome hevs
  have h2 := findEvent_processExpired (expiredOffers db now) r.event_id ev db
    ev.available_seats hev
  refine ⟨h1, h2, ?_, ?_⟩
  · exact List.length_pos.mpr
      (List.ne_nil_of_mem (List.mem_filter.mpr ⟨hmemE, by simp⟩))
  · intro fq sess x hx hcontra
    have hxm := List.mem_filter.mp
      ((List.perm_insertionSort (fun a b => expiresLe a b = true) _).mem_iff.mp hx)
    have hseed : ∀ y, findReg (expireOffersStep db now) r.id = some y →
        isExpiredOffer now y = false := by
      intro y hy
      have hyv := Option.some.inj (h1.symm.trans hy)
      subst hyv
      rfl
    have hP := findReg_reallocFold_preserves (touchedEventIds db now)
      (expireOffersStep db now) now fq sess r.id hseed
    have hidF : (expireOffersAndReallocate db now fq sess).registrations.map
        (fun x => x.id) = db.registrations.map (fun x => x.id) := by
      unfold expireOffersAndReallocate expireOffersStep
      dsimp only
      rw [regIds_reallocFold, regIds_processExpired]
    have hwx : (findReg (expireOffersAndReallocate db now fq sess) r.id).isSome = true := by
      rw [findReg_isSome_iff, hidF]
      exact List.mem_map.mpr ⟨r, hmem, rfl⟩
    obtain ⟨w, hw⟩ := Option.isSome_iff_exists.mp hwx
    have hPw : isExpiredOffer now w = false := hP w hw
    have hndF : ((expireOffersAndReallocate db now fq sess).registrations.map
        (fun x => x.id)).Nodup := by
      rw [hidF]
      exact hnd
    have hxw : x = w := mem_of_nodup_key_find? hndF hw hxm.1 hcontra
    have hxe2 := hxm.2
    rw [hxw, hPw] at hxe2
    simp at hxe2

/-- Witness for C6 at a concrete store: one expired offer (id 21, deadline
100, swept at 200) on a sold-out event; after the sweep it is WAITLIST
with its deadline and session cleared, the event has one seat back, and
the reallocated store's expired-offer snapshot no longer contains it. -/
theorem c6_witness :
    findReg (expireOffersStep dbC6 200) 21
      = some { regO with
          status := RegStatus.waitlist
          offer_expires_at := none
          stripe_session_id := none }
    ∧ findEvent (expireOffersStep dbC6 200) 1 = some { evC6 with available_seats := 1 }
    ∧ ∀ x ∈ expiredOffers
        (expireOffersAndReallocate dbC6 200 (fun _ => "qX") (fun _ => none)) 200,
        x.id ≠ 21 := by
  have h := c6_offer_expiry_roundtrip dbC6 200 regO evC6 (by decide)
    (List.mem_cons_self regO []) (by decide) rfl
  exact ⟨h.1, h.2.1.trans (by decide), h.2.2.2 (fun _ => "qX") (fun _ => none)⟩

end EvMonde
